import Mathlib

/-!
# Verification of the local-event-gateway reverse-sync core

Shallow embedding of the reverse-sync pipeline of `src/background.js` and of
the standalone WebSocket envelope validator (`websocket-envelope.js`,
`src/unnamed/part_000`), with theorems settling the frozen claims about it.

Conventions of the embedding:
* JavaScript objects used as string-keyed maps are modelled as association
  lists `List (String × α)`; property update is modelled by prepending the
  new entry (lookup returns the most recent binding, matching object
  overwrite semantics).
* `Date.now()` values are integers (epoch milliseconds) passed explicitly.
* Sources of nondeterminism (`crypto.randomUUID()`, `new Date()`, the
  `chrome.bookmarks` store) are passed in through an explicit environment.
* `rsLog` calls are modelled as a returned list of log entries; fields that
  a given log line does not set are left at their defaults.
-/

/-- Association-list lookup with plain string equality (first binding wins;
updates are prepended, so the first binding is the most recent one). -/
def alookup {α : Type} : List (String × α) → String → Option α
  | [], _ => none
  | (k, v) :: rest, key => if k = key then some v else alookup rest key

/-- A reverse-sync event (`ReverseEvent` typedef in `background.js`).
`bookmarkId` is `Option String` because `coalesceQueue` and
`processReverseAckResponse` defensively treat a missing/non-string
`bookmarkId` as absent. -/
structure ReverseEvent where
  batchId : String
  eventId : String
  type : String
  bookmarkId : Option String
  managedKey : String
  parentId : Option String
  moveIndex : Option Int
  title : Option String
  url : Option String
  occurredAt : String
  schemaVersion : String
deriving DecidableEq

/-- A durable reverse-queue item (`{event, retryCount, enqueuedAt}`). -/
structure QueueItem where
  event : ReverseEvent
  retryCount : Nat
  enqueuedAt : String
deriving DecidableEq

/-- `suppressionState` record. `cooldownUntil` is `Option Int`: `migrateState`
coerces it to a finite epoch-ms number or `null`. -/
structure SuppressionState where
  applyEpoch : Bool
  epochStartedAt : Option String
  cooldownUntil : Option Int
deriving DecidableEq

/-- `wsDedupe` ledger: `byClient` maps a client id to a bucket mapping a
dedupe key to its recording timestamp. `updatedAt` (an ISO rendering of the
last `now` in the source) is kept as the raw timestamp. -/
structure WsDedupe where
  byClient : List (String × List (String × Int))
  updatedAt : Int
deriving DecidableEq

/-- The migrated durable gateway state (`migrateState` output shape). -/
structure GState where
  managedFolderIds : List (String × String)
  managedBookmarkIds : List (String × String)
  reverseQueue : List QueueItem
  bookmarkIdToManagedKey : List (String × String)
  suppressionState : SuppressionState
  importInProgress : Bool
  wsDedupe : WsDedupe
deriving DecidableEq

/-- One `rsLog` record (only the fields the claims inspect are tracked;
unset fields keep their defaults). -/
structure LogE where
  event : String
  eventId : String
  bookmarkId : Option String
  retryCount : Nat
  reason : String
  status : String
  batchId : String
deriving DecidableEq

/-- A log record with every field at its default. -/
def emptyLog : LogE :=
  { event := ""
    eventId := ""
    bookmarkId := none
    retryCount := 0
    reason := ""
    status := ""
    batchId := "" }

/-- One per-event result inside a `BatchAckResponse`. -/
structure AckResult where
  eventId : String
  status : String
  reason : Option String
  resolvedPath : Option String
  resolvedKey : Option String
deriving DecidableEq

/-- `BatchAckResponse` from the bridge. -/
structure BatchAckResponse where
  batchId : String
  results : List AckResult
deriving DecidableEq

/-- `updateBookmarkKeyMapping(state, bookmarkId, managedKey)`: records the
`bookmarkId -> managedKey` reverse-lookup mapping (object assignment,
modelled as a shadowing prepend). -/
def updateBookmarkKeyMapping (state : GState) (bookmarkId managedKey : String) : GState :=
  { state with bookmarkIdToManagedKey := (bookmarkId, managedKey) :: state.bookmarkIdToManagedKey }

/-- `dequeueAckedEvents(state, ackedEventIds)`: removes queue items whose
`eventId` appears in the acked set. -/
def dequeueAckedEvents (state : GState) (ackedEventIds : List String) : GState :=
  { state with reverseQueue :=
      state.reverseQueue.filter (fun item => decide (item.event.eventId ∉ ackedEventIds)) }

/-- Inner loop of `markFlushFailures`: walks the queue, passes non-failed
items through, increments `retryCount` for failed ones and drops (with a
`quarantine` log) those whose new count reaches 3. -/
def markFailuresGo (failedIds : List String) (reason : String) :
    List QueueItem → List QueueItem × List LogE
  | [] => ([], [])
  | item :: rest =>
    let tail := markFailuresGo failedIds reason rest
    if item.event.eventId ∈ failedIds then
      if 3 ≤ item.retryCount + 1 then
        (tail.1,
         { emptyLog with
           event := "quarantine"
           eventId := item.event.eventId
           bookmarkId := item.event.bookmarkId
           retryCount := item.retryCount + 1
           reason := reason } :: tail.2)
      else
        ({ item with retryCount := item.retryCount + 1 } :: tail.1, tail.2)
    else
      (item :: tail.1, tail.2)

/-- `markFlushFailures(state, failedItems, reason)` from `background.js`.
`Number(item.retryCount || 0) + 1` is `retryCount + 1` on the `Nat` model. -/
def markFlushFailures (state : GState) (failedItems : List QueueItem) (reason : String) :
    GState × List LogE :=
  let failedIds := failedItems.map (fun item => item.event.eventId)
  let next := markFailuresGo failedIds reason state.reverseQueue
  ({ state with reverseQueue := next.1 }, next.2)

theorem markFailuresGo_not_failed (failedIds : List String) (reason : String)
    (q : List QueueItem) :
    (markFailuresGo failedIds reason q).1.filter
        (fun it => !decide (it.event.eventId ∈ failedIds)) =
      q.filter (fun it => !decide (it.event.eventId ∈ failedIds)) := by
  induction q with
  | nil => rfl
  | cons item rest ih =>
    by_cases h : item.event.eventId ∈ failedIds
    · by_cases h3 : 3 ≤ item.retryCount + 1 <;>
        simp [markFailuresGo, h, h3, List.filter_cons, ih]
    · simp [markFailuresGo, h, List.filter_cons, ih]

theorem markFailuresGo_retry_lt (failedIds : List String) (reason : String)
    (q : List QueueItem) (hq : ∀ it ∈ q, it.retryCount < 3) :
    ∀ it ∈ (markFailuresGo failedIds reason q).1, it.retryCount < 3 := by
  induction q with
  | nil => intro it hit; simp [markFailuresGo] at hit
  | cons item rest ih =>
    intro it hit
    have hhead := hq item (List.mem_cons_self _ _)
    have htail : ∀ x ∈ rest, x.retryCount < 3 := fun x hx => hq x (List.mem_cons_of_mem _ hx)
    by_cases h : item.event.eventId ∈ failedIds
    · by_cases h3 : 3 ≤ item.retryCount + 1
      · simp only [markFailuresGo, if_pos h, if_pos h3] at hit
        exact ih htail it hit
      · simp only [markFailuresGo, if_pos h, if_neg h3] at hit
        rcases List.mem_cons.mp hit with heq | hmem
        · subst heq
          show item.retryCount + 1 < 3
          omega
        · exact ih htail it hmem
    · simp only [markFailuresGo, if_neg h] at hit
      rcases List.mem_cons.mp hit with heq | hmem
      · subst heq; exact hhead
      · exact ih htail it hmem

theorem markFailuresGo_failed_kept (failedIds : List String) (reason : String)
    (q : List QueueItem) :
    ∀ it ∈ q, it.event.eventId ∈ failedIds →
      (it.retryCount + 1 < 3 →
        { it with retryCount := it.retryCount + 1 } ∈ (markFailuresGo failedIds reason q).1) ∧
      (3 ≤ it.retryCount + 1 →
        { emptyLog with
          event := "quarantine"
          eventId := it.event.eventId
          bookmarkId := it.event.bookmarkId
          retryCount := it.retryCount + 1
          reason := reason } ∈ (markFailuresGo failedIds reason q).2) := by
  induction q with
  | nil => intro it hit; simp at hit
  | cons item rest ih =>
    intro it hit hfail
    rcases List.mem_cons.mp hit with heq | hmem
    · subst heq
      constructor
      · intro hlt
        have h3 : ¬ 3 ≤ it.retryCount + 1 := by omega
        simp [markFailuresGo, hfail, h3]
      · intro hge
        simp [markFailuresGo, hfail, hge]
    · have tail := ih it hmem hfail
      constructor
      · intro hlt
        by_cases h : item.event.eventId ∈ failedIds
        · by_cases h3 : 3 ≤ item.retryCount + 1 <;>
            simp [markFailuresGo, h, h3, tail.1 hlt]
        · simp [markFailuresGo, h, tail.1 hlt]
      · intro hge
        by_cases h : item.event.eventId ∈ failedIds
        · by_cases h3 : 3 ≤ item.retryCount + 1 <;>
            simp [markFailuresGo, h, h3, tail.2 hge]
        · simp [markFailuresGo, h, tail.2 hge]

theorem markFailuresGo_queue_eq (failedIds : List String) (reason : String)
    (q : List QueueItem) :
    (markFailuresGo failedIds reason q).1 =
      q.filterMap (fun it =>
        if it.event.eventId ∈ failedIds then
          if 3 ≤ it.retryCount + 1 then none
          else some { it with retryCount := it.retryCount + 1 }
        else some it) := by
  induction q with
  | nil => rfl
  | cons item rest ih =>
    by_cases h : item.event.eventId ∈ failedIds
    · by_cases h3 : 3 ≤ item.retryCount + 1
      · have h3' : 2 ≤ item.retryCount := by omega
        simp [markFailuresGo, h, h3, h3', List.filterMap_cons, ih]
      · have h3' : ¬ 2 ≤ item.retryCount := by omega
        simp [markFailuresGo, h, h3, h3', List.filterMap_cons, ih]
    · simp [markFailuresGo, h, List.filterMap_cons, ih]

/-- C3: for every state whose queue items all have `retryCount < 3`,
`markFlushFailures` increments `retryCount` for each queue item whose
`eventId` is in the failed set, removes the item with a `quarantine` log
when the incremented count reaches 3, leaves items outside the failed set
unchanged (in order), and the resulting queue has no item with
`retryCount >= 3`; the resulting queue is exactly the input queue with
each failed item either retry-incremented (new count < 3) or dropped (new
count >= 3), so when every queue item carrying a failed `eventId` is at
the quarantine threshold, no item with that `eventId` survives. -/
theorem c3_markFlushFailures (state : GState) (failedItems : List QueueItem) (reason : String)
    (hq : ∀ it ∈ state.reverseQueue, it.retryCount < 3) :
    (∀ it ∈ state.reverseQueue,
        it.event.eventId ∈ failedItems.map (fun x => x.event.eventId) →
        (it.retryCount + 1 < 3 →
          { it with retryCount := it.retryCount + 1 } ∈
            (markFlushFailures state failedItems reason).1.reverseQueue) ∧
        (3 ≤ it.retryCount + 1 →
          { emptyLog with
            event := "quarantine"
            eventId := it.event.eventId
            bookmarkId := it.event.bookmarkId
            retryCount := it.retryCount + 1
            reason := reason } ∈ (markFlushFailures state failedItems reason).2)) ∧
    ((markFlushFailures state failedItems reason).1.reverseQueue.filter
        (fun it => !decide (it.event.eventId ∈ failedItems.map (fun x => x.event.eventId))) =
      state.reverseQueue.filter
        (fun it => !decide (it.event.eventId ∈ failedItems.map (fun x => x.event.eventId)))) ∧
    (∀ it ∈ (markFlushFailures state failedItems reason).1.reverseQueue,
        ¬ 3 ≤ it.retryCount) ∧
    ((markFlushFailures state failedItems reason).1.reverseQueue =
      state.reverseQueue.filterMap (fun it =>
        if it.event.eventId ∈ failedItems.map (fun x => x.event.eventId) then
          if 3 ≤ it.retryCount + 1 then none
          else some { it with retryCount := it.retryCount + 1 }
        else some it)) ∧
    (∀ e ∈ failedItems.map (fun x => x.event.eventId),
      (∀ it ∈ state.reverseQueue, it.event.eventId = e → 3 ≤ it.retryCount + 1) →
      ∀ it ∈ (markFlushFailures state failedItems reason).1.reverseQueue,
        it.event.eventId ≠ e) := by
  refine ⟨?_, ?_, ?_, ?_, ?_⟩
  · intro it hit hfail
    exact markFailuresGo_failed_kept _ reason state.reverseQueue it hit hfail
  · exact markFailuresGo_not_failed _ reason state.reverseQueue
  · intro it hit
    have hit' : it ∈ (markFailuresGo (failedItems.map (fun x => x.event.eventId)) reason
        state.reverseQueue).1 := hit
    have := markFailuresGo_retry_lt (failedItems.map (fun x => x.event.eventId)) reason
      state.reverseQueue hq it hit'
    omega
  · exact markFailuresGo_queue_eq _ reason state.reverseQueue
  · intro e he hall it hit hide
    have hit' : it ∈ (markFailuresGo (failedItems.map (fun x => x.event.eventId)) reason
        state.reverseQueue).1 := hit
    rw [markFailuresGo_queue_eq] at hit'
    rcases List.mem_filterMap.mp hit' with ⟨x, hx, hfx⟩
    by_cases hxf : x.event.eventId ∈ failedItems.map (fun y => y.event.eventId)
    · by_cases hx3 : 3 ≤ x.retryCount + 1
      · rw [if_pos hxf, if_pos hx3] at hfx
        exact Option.noConfusion hfx
      · rw [if_pos hxf, if_neg hx3] at hfx
        have heq : ({ x with retryCount := x.retryCount + 1 } : QueueItem) = it :=
          Option.some.inj hfx
        have hxe : x.event.eventId = e := by rw [← hide, ← heq]
        exact hx3 (hall x hx hxe)
    · rw [if_neg hxf] at hfx
      have heq : x = it := Option.some.inj hfx
      exact hxf (by rw [heq, hide]; exact he)

/-- Snapshot `eventId -> queue item` built by `processReverseAckResponse`
before any mutation. Object assignment in iteration order means the *last*
queue item with a given `eventId` wins; prepending preserves that under
`alookup`. -/
def snapshotByEventId (queue : List QueueItem) : List (String × QueueItem) :=
  queue.foldl (fun m item => (item.event.eventId, item) :: m) []

/-- The `applied` branch's conditional `resolvedKey -> bookmarkId` mapping
update inside `processReverseAckResponse`. -/
def applyResolvedKey (snapshot : List (String × QueueItem)) (state : GState)
    (r : AckResult) : GState :=
  match r.resolvedKey with
  | some k =>
    if 0 < k.length then
      match alookup snapshot r.eventId with
      | some queueItem =>
        match queueItem.event.bookmarkId with
        | some b => if 0 < b.length then updateBookmarkKeyMapping state b k else state
        | none => state
      | none => state
    else state
  | none => state

/-- Body of the `for (const result of ackResponse.results)` loop of
`processReverseAckResponse`. -/
def processAckResult (batchId : String) (snapshot : List (String × QueueItem))
    (acc : GState × List LogE) (r : AckResult) : GState × List LogE :=
  if r.status = "applied" then
    (dequeueAckedEvents (applyResolvedKey snapshot acc.1 r) [r.eventId],
     acc.2 ++ [{ emptyLog with
                 event := "ack"
                 batchId := batchId
                 eventId := r.eventId
                 status := r.status }])
  else if r.status = "duplicate" then
    (dequeueAckedEvents acc.1 [r.eventId],
     acc.2 ++ [{ emptyLog with
                 event := "ack"
                 batchId := batchId
                 eventId := r.eventId
                 status := r.status }])
  else if r.status = "skipped_ambiguous" ∨ r.status = "skipped_unmanaged" then
    (dequeueAckedEvents acc.1 [r.eventId],
     acc.2 ++ [{ emptyLog with
                 event := "skip"
                 batchId := batchId
                 eventId := r.eventId
                 status := r.status
                 reason := r.reason.getD "" }])
  else if r.status = "rejected_invalid" then
    (dequeueAckedEvents acc.1 [r.eventId],
     acc.2 ++ [{ emptyLog with
                 event := "error"
                 batchId := batchId
                 eventId := r.eventId
                 status := r.status
                 reason := r.reason.getD "" }])
  else
    (acc.1,
     acc.2 ++ [{ emptyLog with
                 event := "warn"
                 batchId := batchId
                 eventId := r.eventId
                 status := r.status
                 reason := "unknown_status" }])

/-- `processReverseAckResponse(state, ackResponse)` from `background.js`:
snapshot, then fold the per-result handler over `results`. -/
def processReverseAckResponse (state : GState) (ackResponse : BatchAckResponse) :
    GState × List LogE :=
  ackResponse.results.foldl
    (processAckResult ackResponse.batchId (snapshotByEventId state.reverseQueue)) (state, [])

theorem dequeue_mem {state : GState} {ids : List String} {item : QueueItem}
    (h : item ∈ (dequeueAckedEvents state ids).reverseQueue) :
    item ∈ state.reverseQueue ∧ item.event.eventId ∉ ids := by
  have h2 : item ∈ state.reverseQueue.filter (fun it => decide (it.event.eventId ∉ ids)) := h
  have h3 := List.mem_filter.mp h2
  simpa using h3

theorem applyResolvedKey_queue (snapshot : List (String × QueueItem)) (state : GState)
    (r : AckResult) : (applyResolvedKey snapshot state r).reverseQueue = state.reverseQueue := by
  unfold applyResolvedKey updateBookmarkKeyMapping
  repeat' (first | rfl | split)

theorem processAckResult_queue_sub (batchId : String) (snapshot : List (String × QueueItem))
    (acc : GState × List LogE) (r : AckResult) :
    ∀ item ∈ (processAckResult batchId snapshot acc r).1.reverseQueue,
      item ∈ acc.1.reverseQueue := by
  intro item hit
  unfold processAckResult at hit
  split at hit
  · have h1 := (dequeue_mem hit).1
    rwa [applyResolvedKey_queue] at h1
  · split at hit
    · exact (dequeue_mem hit).1
    · split at hit
      · exact (dequeue_mem hit).1
      · split at hit
        · exact (dequeue_mem hit).1
        · exact hit

theorem processAck_fold_queue_sub (batchId : String) (snapshot : List (String × QueueItem))
    (rs : List AckResult) (acc : GState × List LogE) :
    ∀ item ∈ (rs.foldl (processAckResult batchId snapshot) acc).1.reverseQueue,
      item ∈ acc.1.reverseQueue := by
  induction rs generalizing acc with
  | nil => intro item hit; exact hit
  | cons r rest ih =>
    intro item hit
    exact processAckResult_queue_sub batchId snapshot acc r item
      (ih (processAckResult batchId snapshot acc r) item hit)

theorem processAckResult_terminal_removes (batchId : String)
    (snapshot : List (String × QueueItem)) (acc : GState × List LogE) (r : AckResult)
    (hterm : r.status = "applied" ∨ r.status = "duplicate" ∨ r.status = "skipped_ambiguous" ∨
      r.status = "skipped_unmanaged" ∨ r.status = "rejected_invalid") :
    ∀ item ∈ (processAckResult batchId snapshot acc r).1.reverseQueue,
      item.event.eventId ≠ r.eventId := by
  intro item hit
  unfold processAckResult at hit
  split at hit
  · simpa using (dequeue_mem hit).2
  · split at hit
    · simpa using (dequeue_mem hit).2
    · split at hit
      · simpa using (dequeue_mem hit).2
      · split at hit
        · simpa using (dequeue_mem hit).2
        · rename_i h1 h2 h3 h4
          rcases hterm with h | h | h | h | h <;> simp [h] at h1 h2 h3 h4

theorem alookup_cons_self {α : Type} (k : String) (v : α) (m : List (String × α)) :
    alookup ((k, v) :: m) k = some v := by
  simp [alookup]

theorem processReverseAckResponse_append (s : GState) (batchId : String)
    (pre rs2 : List AckResult) :
    processReverseAckResponse s ⟨batchId, pre ++ rs2⟩ =
      rs2.foldl (processAckResult batchId (snapshotByEventId s.reverseQueue))
        (processReverseAckResponse s ⟨batchId, pre⟩) := by
  unfold processReverseAckResponse
  simp [List.foldl_append]

/-- C1: after `processReverseAckResponse` handles a result with a terminal
status (`applied`, `duplicate`, `skipped_ambiguous`, `skipped_unmanaged`,
`rejected_invalid`), no queue item with that result's `eventId` remains; a
result with any other status leaves the state exactly as it was before that
result; an `applied` result with a non-empty `resolvedKey` whose snapshot
item has a non-empty `bookmarkId` records `bookmarkIdToManagedKey[bookmarkId]
= resolvedKey`; and a `duplicate` result never modifies
`bookmarkIdToManagedKey` even when `resolvedKey` is present. -/
theorem c1_ack_reconciliation (s : GState) (batchId : String)
    (pre post : List AckResult) (r : AckResult) :
    ((r.status = "applied" ∨ r.status = "duplicate" ∨ r.status = "skipped_ambiguous" ∨
        r.status = "skipped_unmanaged" ∨ r.status = "rejected_invalid") →
      ∀ item ∈ (processReverseAckResponse s ⟨batchId, pre ++ r :: post⟩).1.reverseQueue,
        item.event.eventId ≠ r.eventId) ∧
    (¬(r.status = "applied" ∨ r.status = "duplicate" ∨ r.status = "skipped_ambiguous" ∨
        r.status = "skipped_unmanaged" ∨ r.status = "rejected_invalid") →
      (processReverseAckResponse s ⟨batchId, pre ++ [r]⟩).1 =
        (processReverseAckResponse s ⟨batchId, pre⟩).1) ∧
    (r.status = "applied" → ∀ k, r.resolvedKey = some k → 0 < k.length →
      ∀ qi, alookup (snapshotByEventId s.reverseQueue) r.eventId = some qi →
        ∀ b, qi.event.bookmarkId = some b → 0 < b.length →
          alookup (processReverseAckResponse s ⟨batchId, pre ++ [r]⟩).1.bookmarkIdToManagedKey
            b = some k) ∧
    (r.status = "duplicate" →
      (processReverseAckResponse s ⟨batchId, pre ++ [r]⟩).1.bookmarkIdToManagedKey =
        (processReverseAckResponse s ⟨batchId, pre⟩).1.bookmarkIdToManagedKey) := by
  refine ⟨?_, ?_, ?_, ?_⟩
  · intro hterm item hit
    rw [processReverseAckResponse_append s batchId pre (r :: post)] at hit
    rw [List.foldl_cons] at hit
    have hstep := processAck_fold_queue_sub batchId (snapshotByEventId s.reverseQueue) post
      (processAckResult batchId (snapshotByEventId s.reverseQueue)
        (processReverseAckResponse s ⟨batchId, pre⟩) r) item hit
    exact processAckResult_terminal_removes batchId (snapshotByEventId s.reverseQueue)
      (processReverseAckResponse s ⟨batchId, pre⟩) r hterm item hstep
  · intro hnterm
    push_neg at hnterm
    obtain ⟨h1, h2, h3, h4, h5⟩ := hnterm
    rw [processReverseAckResponse_append s batchId pre [r]]
    rw [List.foldl_cons, List.foldl_nil]
    unfold processAckResult
    rw [if_neg h1, if_neg h2, if_neg (by simp [h3, h4]), if_neg h5]
  · intro ha k hk hkl qi hqi b hb hbl
    rw [processReverseAckResponse_append s batchId pre [r]]
    rw [List.foldl_cons, List.foldl_nil]
    unfold processAckResult
    rw [if_pos ha]
    show alookup (applyResolvedKey (snapshotByEventId s.reverseQueue)
      (processReverseAckResponse s ⟨batchId, pre⟩).1 r).bookmarkIdToManagedKey b = some k
    unfold applyResolvedKey
    rw [hk]
    simp only [if_pos hkl, hqi, hb, if_pos hbl]
    exact alookup_cons_self b k _
  · intro hd
    rw [processReverseAckResponse_append s batchId pre [r]]
    rw [List.foldl_cons, List.foldl_nil]
    unfold processAckResult
    rw [if_neg (by rw [hd]; decide), if_pos hd]
    rfl

/-- A concrete reverse event used by the witnesses. -/
def sampleEvent : ReverseEvent :=
  { batchId := "batch-1"
    eventId := "e1"
    type := "bookmark_updated"
    bookmarkId := some "b1"
    managedKey := "note:Projects/Foo"
    parentId := none
    moveIndex := none
    title := none
    url := none
    occurredAt := "2026-02-25T00:00:00.000Z"
    schemaVersion := "1" }

/-- A concrete one-item queue state used by the witnesses. -/
def sampleState : GState :=
  { managedFolderIds := [("__root__", "100"), ("folder:Projects", "101"),
      ("note:Projects/Alpha.md", "201")]
    managedBookmarkIds := [("note:Projects/Alpha", "bk1")]
    reverseQueue := [{ event := sampleEvent, retryCount := 0, enqueuedAt := "" }]
    bookmarkIdToManagedKey := [("bk1", "note:Projects/Alpha")]
    suppressionState := { applyEpoch := false, epochStartedAt := none, cooldownUntil := none }
    importInProgress := false
    wsDedupe := { byClient := [], updatedAt := 0 } }

theorem c1_ack_reconciliation_witness :
    alookup (processReverseAckResponse sampleState
        ⟨"x", [{ eventId := "e1", status := "applied", reason := none, resolvedPath := none,
                 resolvedKey := some "note:Projects/New" }]⟩).1.bookmarkIdToManagedKey
      "b1" = some "note:Projects/New" :=
  (c1_ack_reconciliation sampleState "x" [] []
      { eventId := "e1", status := "applied", reason := none, resolvedPath := none,
        resolvedKey := some "note:Projects/New" }).2.2.1
    rfl "note:Projects/New" rfl (by decide)
    { event := sampleEvent, retryCount := 0, enqueuedAt := "" } (by decide)
    "b1" rfl (by decide)

theorem c3_markFlushFailures_witness :
    ({ event := sampleEvent, retryCount := 1, enqueuedAt := "" } ∈
      (markFlushFailures sampleState [{ event := sampleEvent, retryCount := 0, enqueuedAt := "" }]
        "network_error").1.reverseQueue) ∧
    (markFlushFailures
        { sampleState with
            reverseQueue := [{ event := sampleEvent, retryCount := 2, enqueuedAt := "" }] }
        [{ event := sampleEvent, retryCount := 2, enqueuedAt := "" }]
        "network_error").1.reverseQueue = [] :=
  ⟨((c3_markFlushFailures sampleState
      [{ event := sampleEvent, retryCount := 0, enqueuedAt := "" }] "network_error"
      (by decide)).1
    { event := sampleEvent, retryCount := 0, enqueuedAt := "" } (by decide) (by decide)).1
    (by decide),
   ((c3_markFlushFailures
      { sampleState with
          reverseQueue := [{ event := sampleEvent, retryCount := 2, enqueuedAt := "" }] }
      [{ event := sampleEvent, retryCount := 2, enqueuedAt := "" }] "network_error"
      (by decide)).2.2.2.1).trans (by decide)⟩

/-- The `lastIndexByBookmarkId` accumulation loop of `coalesceQueue`
(`for (let i = 0; ...)` with object assignment), as a fold carrying the
running index and the accumulated map. -/
def lastIdxGo : List QueueItem → Nat → (String → Option Nat) → (String → Option Nat)
  | [], _, acc => acc
  | item :: rest, i, acc =>
    lastIdxGo rest (i + 1)
      (match item.event.bookmarkId with
       | some b => if 0 < b.length then (fun key => if key = b then some i else acc key) else acc
       | none => acc)

/-- The emission loop of `coalesceQueue`: keep an item when its
`bookmarkId` is absent/empty or its index is the recorded last index. -/
def coalesceGo (last : String → Option Nat) : List QueueItem → Nat → List QueueItem
  | [], _ => []
  | item :: rest, i =>
    (match item.event.bookmarkId with
     | none => [item]
     | some b =>
       if b.length = 0 then [item]
       else if last b = some i then [item] else []) ++ coalesceGo last rest (i + 1)

/-- `coalesceQueue(queue)` from `background.js`. -/
def coalesceQueue (queue : List QueueItem) : List QueueItem :=
  if queue.isEmpty then []
  else coalesceGo (lastIdxGo queue 0 (fun _ => none)) queue 0

/-- Index (from the head) of the last item of `q` whose `event.bookmarkId`
equals `some b` — the specification-side "last occurrence" used to
characterise `lastIdxGo`. -/
def lastOcc (b : String) : List QueueItem → Option Nat
  | [] => none
  | item :: rest =>
    match lastOcc b rest with
    | some j => some (j + 1)
    | none => if item.event.bookmarkId = some b then some 0 else none

theorem lastIdxGo_eq (b : String) (hb : 0 < b.length) :
    ∀ (q : List QueueItem) (i : Nat) (acc : String → Option Nat),
      lastIdxGo q i acc b =
        match lastOcc b q with
        | some j => some (i + j)
        | none => acc b := by
  intro q
  induction q with
  | nil => intro i acc; rfl
  | cons item rest ih =>
    intro i acc
    rw [lastIdxGo, ih]
    cases hrest : lastOcc b rest with
    | some j =>
      simp only [lastOcc, hrest]
      congr 1
      omega
    | none =>
      simp only [lastOcc, hrest]
      cases hbid : item.event.bookmarkId with
      | none =>
        simp [hbid]
      | some b2 =>
        by_cases hb2 : b2 = b
        · subst hb2
          simp [hbid, hb]
        · simp only [hbid]
          rw [if_neg (show ¬ (some b2 = some b) by simp [hb2])]
          by_cases hl : 0 < b2.length
          · rw [if_pos hl]
            show (if b = b2 then some i else acc b) = acc b
            exact if_neg (Ne.symm hb2)
          · rw [if_neg hl]

/-- An item the claim calls "kept unconditionally": its `event.bookmarkId`
is absent or the empty string. -/
def hasEmptyBookmarkId (item : QueueItem) : Bool :=
  match item.event.bookmarkId with
  | none => true
  | some b => decide (b.length = 0)

theorem coalesceQueue_eq_go (q : List QueueItem) :
    coalesceQueue q = coalesceGo (lastIdxGo q 0 (fun _ => none)) q 0 := by
  unfold coalesceQueue
  split
  · rename_i h
    cases q with
    | nil => rfl
    | cons a l => simp at h
  · rfl

theorem coalesceGo_sublist (last : String → Option Nat) :
    ∀ (q : List QueueItem) (i : Nat), List.Sublist (coalesceGo last q i) q := by
  intro q
  induction q with
  | nil => intro i; exact List.Sublist.refl []
  | cons item rest ih =>
    intro i
    show List.Sublist
      ((match item.event.bookmarkId with
        | none => [item]
        | some b =>
          if b.length = 0 then [item]
          else if last b = some i then [item] else []) ++ coalesceGo last rest (i + 1))
      (item :: rest)
    cases hbid : item.event.bookmarkId with
    | none => exact List.Sublist.cons₂ item (ih (i + 1))
    | some b2 =>
      by_cases hl : b2.length = 0
      · simp only [if_pos hl]
        exact List.Sublist.cons₂ item (ih (i + 1))
      · by_cases hli : last b2 = some i
        · simp only [if_neg hl, if_pos hli]
          exact List.Sublist.cons₂ item (ih (i + 1))
        · simp only [if_neg hl, if_neg hli, List.nil_append]
          exact List.Sublist.cons item (ih (i + 1))

theorem coalesceGo_filter_empty (last : String → Option Nat) :
    ∀ (q : List QueueItem) (i : Nat),
      (coalesceGo last q i).filter hasEmptyBookmarkId = q.filter hasEmptyBookmarkId := by
  intro q
  induction q with
  | nil => intro i; rfl
  | cons item rest ih =>
    intro i
    show ((match item.event.bookmarkId with
      | none => [item]
      | some b =>
        if b.length = 0 then [item]
        else if last b = some i then [item] else []) ++
        coalesceGo last rest (i + 1)).filter hasEmptyBookmarkId =
      (item :: rest).filter hasEmptyBookmarkId
    rw [List.filter_append, ih (i + 1)]
    cases hbid : item.event.bookmarkId with
    | none =>
      have hkeep : hasEmptyBookmarkId item = true := by simp [hasEmptyBookmarkId, hbid]
      simp [List.filter_cons, hkeep]
    | some b2 =>
      by_cases hl : b2.length = 0
      · have hkeep : hasEmptyBookmarkId item = true := by simp [hasEmptyBookmarkId, hbid, hl]
        simp [List.filter_cons, hkeep, hl]
      · have hdrop : hasEmptyBookmarkId item = false := by simp [hasEmptyBookmarkId, hbid, hl]
        by_cases hli : last b2 = some i <;>
          simp [List.filter_cons, hdrop, hl, hli]

/-- The possible contribution of position `n` of `q` to the coalesced
output restricted to `bookmarkId = some b` (proof-side helper). -/
def bidAt (q : List QueueItem) (b : String) (n : Nat) : List QueueItem :=
  match q.get? n with
  | some it => if it.event.bookmarkId = some b then [it] else []
  | none => []

/-- Proof-side specification of what `coalesceGo` keeps among the items
whose `bookmarkId` equals `some b`: the single item sitting at the recorded
last index (if any, and if it indeed carries that `bookmarkId`). -/
def bidFilterSpec (last : String → Option Nat) (b : String) (q : List QueueItem)
    (i : Nat) : List QueueItem :=
  match last b with
  | none => []
  | some kk => if i ≤ kk then bidAt q b (kk - i) else []

theorem bidFilterSpec_none (last : String → Option Nat) (b : String) (q : List QueueItem)
    (i : Nat) (h : last b = none) : bidFilterSpec last b q i = [] := by
  unfold bidFilterSpec
  rw [h]

theorem bidFilterSpec_some (last : String → Option Nat) (b : String) (q : List QueueItem)
    (i kk : Nat) (h : last b = some kk) :
    bidFilterSpec last b q i = if i ≤ kk then bidAt q b (kk - i) else [] := by
  unfold bidFilterSpec
  rw [h]

theorem bidFilterSpec_out_of_range (last : String → Option Nat) (b : String)
    (q : List QueueItem) (i kk : Nat) (h : last b = some kk) (hk : kk < i) :
    bidFilterSpec last b q i = [] := by
  rw [bidFilterSpec_some last b q i kk h, if_neg (by omega)]

theorem bidFilterSpec_cons (last : String → Option Nat) (b : String) (item : QueueItem)
    (rest : List QueueItem) (i : Nat) :
    bidFilterSpec last b (item :: rest) i =
      if last b = some i then (if item.event.bookmarkId = some b then [item] else [])
      else bidFilterSpec last b rest (i + 1) := by
  cases hlb : last b with
  | none =>
    rw [bidFilterSpec_none last b (item :: rest) i hlb,
      bidFilterSpec_none last b rest (i + 1) hlb, if_neg (by simp [hlb])]
  | some kk =>
    rw [bidFilterSpec_some last b (item :: rest) i kk hlb,
      bidFilterSpec_some last b rest (i + 1) kk hlb]
    by_cases hk : kk = i
    · subst hk
      rw [if_pos (Nat.le_refl kk), if_pos rfl, Nat.sub_self]
      rfl
    · rw [if_neg (show ¬ some kk = some i by simp [hk])]
      by_cases hik : i + 1 ≤ kk
      · rw [if_pos (show i ≤ kk by omega), if_pos hik]
        have hsub : kk - i = (kk - (i + 1)) + 1 := by omega
        rw [hsub]
        rfl
      · rw [if_neg (show ¬ i ≤ kk by omega), if_neg hik]

theorem coalesceGo_filter_bid (last : String → Option Nat) (b : String)
    (hb : ¬ b.length = 0) :
    ∀ (q : List QueueItem) (i : Nat),
      (coalesceGo last q i).filter (fun it => decide (it.event.bookmarkId = some b)) =
        bidFilterSpec last b q i := by
  intro q
  induction q with
  | nil =>
    intro i
    cases hlb : last b with
    | none => rw [bidFilterSpec_none last b [] i hlb]; rfl
    | some kk =>
      rw [bidFilterSpec_some last b [] i kk hlb]
      by_cases hik : i ≤ kk
      · rw [if_pos hik]
        show ([] : List QueueItem) = bidAt [] b (kk - i)
        simp [bidAt]
      · rw [if_neg hik]
        rfl
  | cons item rest ih =>
    intro i
    show ((match item.event.bookmarkId with
      | none => [item]
      | some bb =>
        if bb.length = 0 then [item]
        else if last bb = some i then [item] else []) ++
        coalesceGo last rest (i + 1)).filter
        (fun it => decide (it.event.bookmarkId = some b)) = _
    rw [List.filter_append, ih (i + 1), bidFilterSpec_cons]
    cases hbid : item.event.bookmarkId with
    | none =>
      by_cases hli : last b = some i
      · rw [if_pos hli, bidFilterSpec_out_of_range last b rest (i + 1) i hli (by omega)]
        simp [hbid]
      · rw [if_neg hli]
        simp [hbid]
    | some b2 =>
      by_cases hb2 : b2 = b
      · subst hb2
        by_cases hli : last b2 = some i
        · rw [if_pos hli, bidFilterSpec_out_of_range last b2 rest (i + 1) i hli (by omega)]
          simp [hbid, hb, hli]
        · rw [if_neg hli]
          simp [hbid, hb, hli]
      · by_cases hli : last b = some i
        · rw [if_pos hli, bidFilterSpec_out_of_range last b rest (i + 1) i hli (by omega)]
          by_cases hl2 : b2.length = 0
          · simp [hbid, hl2, hb2]
          · by_cases hli2 : last b2 = some i <;> simp [hbid, hl2, hli2, hb2]
        · rw [if_neg hli]
          by_cases hl2 : b2.length = 0
          · simp [hbid, hl2, hb2]
          · by_cases hli2 : last b2 = some i <;> simp [hbid, hl2, hli2, hb2]

theorem lastOcc_none_filter (b : String) (q : List QueueItem)
    (h : lastOcc b q = none) :
    q.filter (fun it => decide (it.event.bookmarkId = some b)) = [] := by
  induction q with
  | nil => rfl
  | cons item rest ih =>
    cases hrest : lastOcc b rest with
    | some j => simp [lastOcc, hrest] at h
    | none =>
      rw [lastOcc, hrest] at h
      by_cases hbid : item.event.bookmarkId = some b
      · rw [if_pos hbid] at h
        exact absurd h (by simp)
      · rw [List.filter_cons_of_neg (by simpa using hbid)]
        exact ih hrest

theorem lastOcc_some_filter (b : String) :
    ∀ (q : List QueueItem) (j : Nat), lastOcc b q = some j →
      ∃ it, q.get? j = some it ∧ it.event.bookmarkId = some b ∧
        (q.filter (fun x => decide (x.event.bookmarkId = some b))).getLast? = some it := by
  intro q
  induction q with
  | nil => intro j h; simp [lastOcc] at h
  | cons item rest ih =>
    intro j h
    cases hrest : lastOcc b rest with
    | some j2 =>
      rw [lastOcc, hrest] at h
      have hj : j = j2 + 1 := by simpa using h.symm
      subst hj
      obtain ⟨it, hget, hbid, hlast⟩ := ih j2 hrest
      refine ⟨it, by simpa using hget, hbid, ?_⟩
      cases hf : rest.filter (fun x => decide (x.event.bookmarkId = some b)) with
      | nil => rw [hf] at hlast; simp at hlast
      | cons y ys =>
        by_cases hbi : item.event.bookmarkId = some b
        · rw [List.filter_cons_of_pos (by simpa using hbi), hf]
          rw [hf] at hlast
          rw [List.getLast?_cons_cons]
          exact hlast
        · rw [List.filter_cons_of_neg (by simpa using hbi)]
          rw [← hf] at *
          exact hlast
    | none =>
      rw [lastOcc, hrest] at h
      by_cases hbi : item.event.bookmarkId = some b
      · rw [if_pos hbi] at h
        have hj : j = 0 := by simpa using h.symm
        subst hj
        refine ⟨item, by simp, hbi, ?_⟩
        rw [List.filter_cons_of_pos (by simpa using hbi), lastOcc_none_filter b rest hrest]
        rfl
      · rw [if_neg hbi] at h
        exact absurd h (by simp)

/-- C2: `coalesceQueue` emits a subsequence of the queue (original order);
items whose `bookmarkId` is absent or empty are all kept; and for every
non-empty `bookmarkId` `b` the output contains at most one item with that
`bookmarkId` — exactly the last such item of the input when one exists. -/
theorem c2_coalesceQueue (q : List QueueItem) (b : String) (hb : b ≠ "") :
    List.Sublist (coalesceQueue q) q ∧
    (coalesceQueue q).filter hasEmptyBookmarkId = q.filter hasEmptyBookmarkId ∧
    (coalesceQueue q).filter (fun it => decide (it.event.bookmarkId = some b)) =
      ((q.filter (fun it => decide (it.event.bookmarkId = some b))).getLast?).toList := by
  have hb0 : ¬ b.length = 0 := by
    intro h0
    apply hb
    cases b with
    | mk data =>
      cases data with
      | nil => rfl
      | cons a l => simp [String.length] at h0
  rw [coalesceQueue_eq_go]
  refine ⟨coalesceGo_sublist _ q 0, coalesceGo_filter_empty _ q 0, ?_⟩
  rw [coalesceGo_filter_bid _ b hb0 q 0]
  cases hocc : lastOcc b q with
  | none =>
    have hlb : lastIdxGo q 0 (fun _ => none) b = none := by
      rw [lastIdxGo_eq b (by omega) q 0 (fun _ => none), hocc]
    rw [bidFilterSpec_none _ b q 0 hlb, lastOcc_none_filter b q hocc]
    rfl
  | some j =>
    have hlb : lastIdxGo q 0 (fun _ => none) b = some j := by
      rw [lastIdxGo_eq b (by omega) q 0 (fun _ => none), hocc]
      simp
    obtain ⟨it, hget, hbid, hlast⟩ := lastOcc_some_filter b q j hocc
    rw [bidFilterSpec_some _ b q 0 j hlb, if_pos (Nat.zero_le j), hlast]
    show bidAt q b (j - 0) = [it]
    rw [Nat.sub_zero]
    unfold bidAt
    rw [hget]
    show (if it.event.bookmarkId = some b then [it] else []) = [it]
    rw [if_pos hbid]

theorem c2_coalesceQueue_witness :
    List.Sublist (coalesceQueue sampleState.reverseQueue) sampleState.reverseQueue ∧
    (coalesceQueue sampleState.reverseQueue).filter hasEmptyBookmarkId =
      sampleState.reverseQueue.filter hasEmptyBookmarkId ∧
    (coalesceQueue sampleState.reverseQueue).filter
        (fun it => decide (it.event.bookmarkId = some "b1")) =
      ((sampleState.reverseQueue.filter
        (fun it => decide (it.event.bookmarkId = some "b1"))).getLast?).toList :=
  c2_coalesceQueue sampleState.reverseQueue "b1" (by decide)

/-- JavaScript `a || b` on a possibly-absent string: an absent or empty
string falls through to the fallback. -/
def jsOrS (a : Option String) (b : String) : String :=
  match a with
  | some s => if s = "" then b else s
  | none => b

/-- JavaScript truthiness of a possibly-absent string. -/
def strTruthy : Option String → Bool
  | some s => decide (s ≠ "")
  | none => false

/-- `s.slice(n)` / `String.prototype.slice` on code points, modelled on the
character list (kernel-evaluable, unlike `String.drop`). -/
def strDrop (s : String) (n : Nat) : String := { data := s.data.drop n }

/-- `String.prototype.trim`, modelled on the character list. -/
def strTrim (s : String) : String :=
  { data := ((s.data.dropWhile Char.isWhitespace).reverse.dropWhile
      Char.isWhitespace).reverse }

/-- `s.startsWith(p)`, modelled on the character list. -/
def strStartsWith (s p : String) : Bool := p.data.isPrefixOf s.data

/-- `shouldSuppressReverseEnqueue(state)` from `background.js`;
`Date.now()` is the explicit `now`. `cooldownUntil : Option Int` already
encodes the "is a finite number" check of the source. -/
def shouldSuppressReverseEnqueue (state : GState) (now : Int) : Bool :=
  if state.suppressionState.applyEpoch = true then true
  else
    match state.suppressionState.cooldownUntil with
    | some cooldownUntil => decide (now < cooldownUntil)
    | none => false

/-- The client bucket read at the top of `recordAndCheckDedupe` (missing or
non-object buckets become empty). -/
def clientBucketOf (state : GState) (clientId : String) : List (String × Int) :=
  match alookup state.wsDedupe.byClient clientId with
  | some bucket => bucket
  | none => []

/-- `recordAndCheckDedupe(state, clientId, key)` from `background.js`.
Eviction keeps an entry iff `now - ts <= ttlMs` (the source deletes when
`now - ts > ttlMs`; timestamps are always finite in the model). The
`{...byClient, [clientId]: bucket}` object update is the shadowing prepend. -/
def recordAndCheckDedupe (state : GState) (clientId key : String) (now : Int) :
    GState × Bool :=
  let ttlMs : Int := 5 * 60 * 1000
  let clientBucket :=
    (clientBucketOf state clientId).filter (fun p => decide (now - p.2 ≤ ttlMs))
  if (alookup clientBucket key).isSome then
    ({ state with wsDedupe :=
        { byClient := (clientId, clientBucket) :: state.wsDedupe.byClient
          updatedAt := now } }, false)
  else
    ({ state with wsDedupe :=
        { byClient := (clientId, clientBucket ++ [(key, now)]) :: state.wsDedupe.byClient
          updatedAt := now } }, true)

/-- `enqueueReverseEvent(state, event)` from `background.js`: dedupe on
`outbound:<eventId>`, then append `{event, retryCount: 0, enqueuedAt}`. -/
def enqueueReverseEvent (state : GState) (event : ReverseEvent) (now : Int)
    (nowIso : String) : GState × List LogE :=
  let r := recordAndCheckDedupe state "outbound" ("outbound:" ++ event.eventId) now
  if r.2 = false then
    (r.1, [{ emptyLog with
             event := "capture_skip"
             reason := "duplicate_outbound_event"
             eventId := event.eventId }])
  else
    ({ r.1 with reverseQueue :=
        r.1.reverseQueue ++ [{ event := event, retryCount := 0, enqueuedAt := nowIso }] },
     [{ emptyLog with
        event := "enqueue"
        batchId := event.batchId
        eventId := event.eventId }])

/-- `getManagedBookmarkKeyById(state, id)`: reverse map first, then a scan
of `managedBookmarkIds` values in insertion order. -/
def getManagedBookmarkKeyById (state : GState) (id : String) : Option String :=
  match alookup state.bookmarkIdToManagedKey id with
  | some k => some k
  | none =>
    match state.managedBookmarkIds.find? (fun p => decide (p.2 = id)) with
    | some p => some p.1
    | none => none

/-- `isManagedBookmarkId(state, id)`. -/
def isManagedBookmarkId (state : GState) (id : String) : Bool :=
  (getManagedBookmarkKeyById state id).isSome

/-- `isManagedFolderId(state, id)` (the id may be an absent `parentId`). -/
def isManagedFolderId (state : GState) (id : Option String) : Bool :=
  match id with
  | some i => state.managedFolderIds.any (fun p => decide (p.2 = i))
  | none => false

/-- `getManagedFolderKeyById(state, id)`: scan skipping `__root__`. -/
def getManagedFolderKeyById (state : GState) (id : Option String) : Option String :=
  match id with
  | none => none
  | some i =>
    match state.managedFolderIds.find? (fun p => decide (p.1 ≠ "__root__" ∧ p.2 = i)) with
    | some p => some p.1
    | none => none

/-- A `chrome.bookmarks` node as the capture handlers observe it. -/
structure BNode where
  id : String
  title : String
  url : Option String
deriving DecidableEq

/-- Environment of a capture handler run: the clock, the two fresh UUIDs
(`crypto.randomUUID()` for `batchId` and `eventId`), and the bookmark
store (`chrome.bookmarks.get` / `getChildren`; `none` models a lookup
failure, which the source catches). -/
structure CaptureEnv where
  now : Int
  nowIso : String
  newBatchId : String
  newEventId : String
  getNode : String → Option BNode
  getChildren : String → Option (List BNode)

/-- `resolveFolderNameFromBookmarkId(id)`: the node's trimmed title, or
`""` on a falsy id, missing node, or store failure. -/
def resolveFolderNameFromBookmarkId (env : CaptureEnv) (id : Option String) : String :=
  match id with
  | none => ""
  | some i =>
    if i = "" then ""
    else
      match env.getNode i with
      | some node => strTrim node.title
      | none => ""

/-- The scan loop of `resolveLinkIndexWithinParent`: position among
link children only (folders do not count). -/
def linkIndexGo (bookmarkId : String) : List BNode → Int → Option Int
  | [], _ => none
  | child :: rest, linkIndex =>
    match child.url with
    | some u =>
      if u = "" then linkIndexGo bookmarkId rest linkIndex
      else if child.id = bookmarkId then some linkIndex
      else linkIndexGo bookmarkId rest (linkIndex + 1)
    | none => linkIndexGo bookmarkId rest linkIndex

/-- `resolveLinkIndexWithinParent(parentId, bookmarkId)`. -/
def resolveLinkIndexWithinParent (env : CaptureEnv) (parentId : Option String)
    (bookmarkId : String) : Option Int :=
  match parentId with
  | none => none
  | some p =>
    if p = "" then none
    else if bookmarkId = "" then none
    else
      match env.getChildren p with
      | some children => linkIndexGo bookmarkId children 0
      | none => none

/-- The `bookmark` argument of `handleBookmarkCreated`. -/
structure CreatedInfo where
  parentId : Option String
  index : Option Int
  title : Option String
  url : Option String
deriving DecidableEq

/-- The `changeInfo` argument of `handleBookmarkChanged`. -/
structure ChangeInfo where
  title : Option String
  url : Option String
deriving DecidableEq

/-- The `moveInfo` argument of `handleBookmarkMoved` (only the fields the
handler reads). -/
structure MoveInfo where
  parentId : Option String
  oldParentId : Option String
deriving DecidableEq

/-- The `createdIndex` computation of `handleBookmarkCreated`:
`Number.isInteger(bookmark.index) && bookmark.index >= 0 ? bookmark.index : 0`. -/
def createdIndexOf (index : Option Int) : Int :=
  match index with
  | some n => if 0 ≤ n then n else 0
  | none => 0

/-- `handleBookmarkCreated(id, bookmark)` from `background.js` (the unused
`parentManaged`/`selfManaged` bindings of the source are dead code and are
not modelled). Returns the persisted state and the emitted logs. -/
def handleBookmarkCreated (env : CaptureEnv) (state : GState) (id : String)
    (bookmark : Option CreatedInfo) : GState × List LogE :=
  if state.importInProgress then
    (state, [{ emptyLog with event := "capture_skip", reason := "import_in_progress" }])
  else if shouldSuppressReverseEnqueue state env.now then
    (state, [{ emptyLog with event := "capture_skip", reason := "suppressed" }])
  else
    let managedKey0 := jsOrS (getManagedBookmarkKeyById state id) ""
    let derived : GState × String :=
      if managedKey0 = "" then
        match bookmark with
        | some bm =>
          match getManagedFolderKeyById state bm.parentId with
          | some parentKey =>
            if strStartsWith parentKey "note:" then
              (updateBookmarkKeyMapping state id
                  (strTrim (strDrop parentKey 5) ++ "|" ++ toString (createdIndexOf bm.index)),
               strTrim (strDrop parentKey 5) ++ "|" ++ toString (createdIndexOf bm.index))
            else if strStartsWith parentKey "folder:" then
              (updateBookmarkKeyMapping state id parentKey, parentKey)
            else
              let parentName := resolveFolderNameFromBookmarkId env bm.parentId
              if parentName ≠ "" then
                (updateBookmarkKeyMapping state id ("folder:" ++ parentName),
                 "folder:" ++ parentName)
              else (state, managedKey0)
          | none =>
            let parentName := resolveFolderNameFromBookmarkId env bm.parentId
            if parentName ≠ "" then
              (updateBookmarkKeyMapping state id ("folder:" ++ parentName),
               "folder:" ++ parentName)
            else (state, managedKey0)
        | none => (state, managedKey0)
      else (state, managedKey0)
    let managedKey := if derived.2 = "" then "bookmark:" ++ id else derived.2
    let event : ReverseEvent :=
      { batchId := env.newBatchId
        eventId := env.newEventId
        type := "bookmark_created"
        bookmarkId := some id
        managedKey := managedKey
        parentId := none
        moveIndex := none
        title := match bookmark with | some bm => bm.title | none => none
        url := match bookmark with | some bm => bm.url | none => none
        occurredAt := env.nowIso
        schemaVersion := "1" }
    enqueueReverseEvent derived.1 event env.now env.nowIso

/-- `handleBookmarkChanged(id, changeInfo)` from `background.js`. -/
def handleBookmarkChanged (env : CaptureEnv) (state : GState) (id : String)
    (changeInfo : Option ChangeInfo) : GState × List LogE :=
  if shouldSuppressReverseEnqueue state env.now then
    (state, [{ emptyLog with event := "capture_skip", reason := "suppressed" }])
  else
    let bookmarkKey := getManagedBookmarkKeyById state id
    let folderKey := getManagedFolderKeyById state (some id)
    let fallbackKey :=
      if !(strTruthy bookmarkKey) && !(strTruthy folderKey) then "bookmark:" ++ id else ""
    let isFolderRename := !(strTruthy bookmarkKey) && strTruthy folderKey
    let event : ReverseEvent :=
      { batchId := env.newBatchId
        eventId := env.newEventId
        type := if isFolderRename then "folder_renamed" else "bookmark_updated"
        bookmarkId := some id
        managedKey := jsOrS bookmarkKey (jsOrS folderKey fallbackKey)
        parentId := none
        moveIndex := none
        title := match changeInfo with | some ci => ci.title | none => none
        url :=
          if isFolderRename then none
          else match changeInfo with | some ci => ci.url | none => none
        occurredAt := env.nowIso
        schemaVersion := "1" }
    enqueueReverseEvent state event env.now env.nowIso

/-- `handleBookmarkRemoved(id, removeInfo)` from `background.js`
(`removeInfo` is unused by the source). -/
def handleBookmarkRemoved (env : CaptureEnv) (state : GState) (id : String) :
    GState × List LogE :=
  if shouldSuppressReverseEnqueue state env.now then
    (state, [{ emptyLog with event := "capture_skip", reason := "suppressed" }])
  else
    let event : ReverseEvent :=
      { batchId := env.newBatchId
        eventId := env.newEventId
        type := "bookmark_deleted"
        bookmarkId := some id
        managedKey := jsOrS (getManagedBookmarkKeyById state id) ("bookmark:" ++ id)
        parentId := none
        moveIndex := none
        title := none
        url := none
        occurredAt := env.nowIso
        schemaVersion := "1" }
    enqueueReverseEvent state event env.now env.nowIso

/-- `handleBookmarkMoved(id, moveInfo)` from `background.js`. -/
def handleBookmarkMoved (env : CaptureEnv) (state : GState) (id : String)
    (moveInfo : Option MoveInfo) : GState × List LogE :=
  if shouldSuppressReverseEnqueue state env.now then
    (state, [{ emptyLog with event := "capture_skip", reason := "suppressed" }])
  else
    let sameParentMove :=
      match moveInfo with
      | some mi =>
        match mi.parentId, mi.oldParentId with
        | some p, some o => decide (p = o)
        | _, _ => false
      | none => false
    let event : ReverseEvent :=
      { batchId := env.newBatchId
        eventId := env.newEventId
        type := "bookmark_updated"
        bookmarkId := some id
        managedKey := jsOrS (getManagedBookmarkKeyById state id) ("bookmark:" ++ id)
        parentId := match moveInfo with | some mi => mi.parentId | none => none
        moveIndex :=
          if sameParentMove then
            resolveLinkIndexWithinParent env
              (match moveInfo with | some mi => mi.parentId | none => none) id
          else none
        title := none
        url := none
        occurredAt := env.nowIso
        schemaVersion := "1" }
    enqueueReverseEvent state event env.now env.nowIso

/-- C4: while `applyEpoch` is true or a finite `cooldownUntil` lies strictly
in the future, every capture handler returns without touching the reverse
queue; and the suppression gate holds exactly under one of those two
conditions. -/
theorem c4_suppression (env : CaptureEnv) (state : GState) (id : String)
    (bookmark : Option CreatedInfo) (changeInfo : Option ChangeInfo)
    (moveInfo : Option MoveInfo)
    (h : shouldSuppressReverseEnqueue state env.now = true) :
    (handleBookmarkCreated env state id bookmark).1.reverseQueue = state.reverseQueue ∧
    (handleBookmarkChanged env state id changeInfo).1.reverseQueue = state.reverseQueue ∧
    (handleBookmarkRemoved env state id).1.reverseQueue = state.reverseQueue ∧
    (handleBookmarkMoved env state id moveInfo).1.reverseQueue = state.reverseQueue ∧
    (shouldSuppressReverseEnqueue state env.now = true ↔
      (state.suppressionState.applyEpoch = true ∨
        ∃ c, state.suppressionState.cooldownUntil = some c ∧ env.now < c)) := by
  refine ⟨?_, ?_, ?_, ?_, ?_⟩
  · unfold handleBookmarkCreated
    by_cases hi : state.importInProgress = true
    · rw [if_pos hi]
    · rw [if_neg hi, if_pos h]
  · unfold handleBookmarkChanged
    rw [if_pos h]
  · unfold handleBookmarkRemoved
    rw [if_pos h]
  · unfold handleBookmarkMoved
    rw [if_pos h]
  · constructor
    · intro hs
      unfold shouldSuppressReverseEnqueue at hs
      by_cases ha : state.suppressionState.applyEpoch = true
      · exact Or.inl ha
      · rw [if_neg ha] at hs
        right
        cases hc : state.suppressionState.cooldownUntil with
        | none => rw [hc] at hs; exact absurd hs (by simp)
        | some c =>
          rw [hc] at hs
          exact ⟨c, rfl, by simpa using hs⟩
    · intro hcond
      unfold shouldSuppressReverseEnqueue
      rcases hcond with ha | ⟨c, hc, hlt⟩
      · rw [if_pos ha]
      · by_cases ha : state.suppressionState.applyEpoch = true
        · rw [if_pos ha]
        · rw [if_neg ha, hc]
          simpa using hlt

/-- A concrete capture environment for the witnesses. -/
def sampleEnv : CaptureEnv :=
  { now := 1000
    nowIso := "2026-02-25T00:00:01.000Z"
    newBatchId := "nb-1"
    newEventId := "ne-1"
    getNode := fun _ => none
    getChildren := fun _ => none }

/-- `sampleState` with the apply-epoch suppression flag raised. -/
def suppressedState : GState :=
  { sampleState with suppressionState :=
      { applyEpoch := true
        epochStartedAt := some "2026-02-25T00:00:00.000Z"
        cooldownUntil := none } }

theorem c4_suppression_witness :
    (handleBookmarkChanged sampleEnv suppressedState "bk1"
        (some { title := some "T", url := none })).1.reverseQueue =
      suppressedState.reverseQueue :=
  (c4_suppression sampleEnv suppressedState "bk1" none
      (some { title := some "T", url := none }) none (by decide)).2.1

theorem recordAndCheckDedupe_fields (s : GState) (c k : String) (n : Int) :
    (recordAndCheckDedupe s c k n).1.reverseQueue = s.reverseQueue ∧
    (recordAndCheckDedupe s c k n).1.bookmarkIdToManagedKey = s.bookmarkIdToManagedKey := by
  simp only [recordAndCheckDedupe]
  split
  · exact ⟨rfl, rfl⟩
  · exact ⟨rfl, rfl⟩

theorem enqueue_effect (state : GState) (event : ReverseEvent) (now : Int) (nowIso : String)
    (hDed : (recordAndCheckDedupe state "outbound" ("outbound:" ++ event.eventId) now).2
      = true) :
    (enqueueReverseEvent state event now nowIso).1.reverseQueue.map
        (fun it => it.event.managedKey) =
      state.reverseQueue.map (fun it => it.event.managedKey) ++ [event.managedKey] ∧
    (enqueueReverseEvent state event now nowIso).1.bookmarkIdToManagedKey =
      state.bookmarkIdToManagedKey ∧
    (enqueueReverseEvent state event now nowIso).1.reverseQueue.length =
      state.reverseQueue.length + 1 := by
  unfold enqueueReverseEvent
  rw [if_neg (by simp [hDed])]
  obtain ⟨hq, hm⟩ :=
    recordAndCheckDedupe_fields state "outbound" ("outbound:" ++ event.eventId) now
  refine ⟨?_, hm, ?_⟩
  · show ((recordAndCheckDedupe state "outbound" ("outbound:" ++ event.eventId)
        now).1.reverseQueue ++
        [({ event := event, retryCount := 0, enqueuedAt := nowIso } : QueueItem)]).map
        (fun it => it.event.managedKey) =
      state.reverseQueue.map (fun it => it.event.managedKey) ++ [event.managedKey]
    rw [hq, List.map_append]
    rfl
  · show ((recordAndCheckDedupe state "outbound" ("outbound:" ++ event.eventId)
        now).1.reverseQueue ++
        [({ event := event, retryCount := 0, enqueuedAt := nowIso } : QueueItem)]).length =
      state.reverseQueue.length + 1
    rw [hq, List.length_append]
    rfl

/-- C6 counterexample: a state in import (`importInProgress = true`) with
suppression off — `handleBookmarkChanged` still appends to the reverse
queue, refuting "every capture handler enqueues nothing and skips with
reason import_in_progress". -/
theorem c6_importInProgress_counterexample :
    ({ sampleState with importInProgress := true } : GState).importInProgress = true ∧
    shouldSuppressReverseEnqueue { sampleState with importInProgress := true }
      sampleEnv.now = false ∧
    (handleBookmarkChanged sampleEnv { sampleState with importInProgress := true } "bk1"
        (some { title := some "T", url := none })).1.reverseQueue.length =
      sampleState.reverseQueue.length + 1 := by
  decide

/-- C6 (amended): only `handleBookmarkCreated` checks `importInProgress`
(before the suppression check, skipping with `reason=import_in_progress`);
`handleBookmarkChanged`, `handleBookmarkRemoved` and `handleBookmarkMoved`
perform no such check and enqueue even while an import is in progress. -/
theorem c6_import_gating (env : CaptureEnv) (id : String) (bookmark : Option CreatedInfo)
    (changeInfo : Option ChangeInfo) (moveInfo : Option MoveInfo) (state : GState)
    (hImp : state.importInProgress = true)
    (hSup : shouldSuppressReverseEnqueue state env.now = false)
    (hDed : (recordAndCheckDedupe state "outbound" ("outbound:" ++ env.newEventId)
      env.now).2 = true) :
    (∀ s2 : GState, s2.importInProgress = true →
      handleBookmarkCreated env s2 id bookmark =
        (s2, [{ emptyLog with event := "capture_skip", reason := "import_in_progress" }])) ∧
    (handleBookmarkChanged env state id changeInfo).1.reverseQueue.length =
      state.reverseQueue.length + 1 ∧
    (handleBookmarkRemoved env state id).1.reverseQueue.length =
      state.reverseQueue.length + 1 ∧
    (handleBookmarkMoved env state id moveInfo).1.reverseQueue.length =
      state.reverseQueue.length + 1 := by
  refine ⟨?_, ?_, ?_, ?_⟩
  · intro s2 h2
    unfold handleBookmarkCreated
    rw [if_pos h2]
  · unfold handleBookmarkChanged
    rw [if_neg (by simp [hSup])]
    exact (enqueue_effect state _ env.now env.nowIso hDed).2.2
  · unfold handleBookmarkRemoved
    rw [if_neg (by simp [hSup])]
    exact (enqueue_effect state _ env.now env.nowIso hDed).2.2
  · unfold handleBookmarkMoved
    rw [if_neg (by simp [hSup])]
    exact (enqueue_effect state _ env.now env.nowIso hDed).2.2

theorem c6_import_gating_witness :
    handleBookmarkCreated sampleEnv { sampleState with importInProgress := true } "bkX" none =
      ({ sampleState with importInProgress := true },
        [{ emptyLog with event := "capture_skip", reason := "import_in_progress" }]) :=
  (c6_import_gating sampleEnv "bkX" none none none
      { sampleState with importInProgress := true }
      (by decide) (by decide) (by decide)).1
    { sampleState with importInProgress := true } (by decide)

/-- A managed-folder state with an empty reverse queue. -/
def emptyQueueState : GState :=
  { managedFolderIds := [("__root__", "100"), ("folder:Projects", "101")]
    managedBookmarkIds := []
    reverseQueue := []
    bookmarkIdToManagedKey := []
    suppressionState := { applyEpoch := false, epochStartedAt := none, cooldownUntil := none }
    importInProgress := false
    wsDedupe := { byClient := [], updatedAt := 0 } }

/-- C7: `handleBookmarkRemoved` on a managed folder id ("101", tracked in
`managedFolderIds`) enqueues a `bookmark_deleted` event with the fallback
key — contradicting the spec and the repository's own test
("does NOT enqueue for managed folder id", `listeners.test.js`). -/
theorem c7_removed_managed_folder_enqueues :
    isManagedFolderId emptyQueueState (some "101") = true ∧
    (handleBookmarkRemoved sampleEnv emptyQueueState "101").1.reverseQueue.map
        (fun it => (it.event.type, it.event.managedKey)) =
      [("bookmark_deleted", "bookmark:101")] := by
  decide

theorem recordAndCheckDedupe_accepted (s : GState) (c k : String) (n : Int) :
    (recordAndCheckDedupe s c k n).2 =
      !(alookup ((clientBucketOf s c).filter
        (fun p => decide (n - p.2 ≤ 5 * 60 * 1000))) k).isSome := by
  simp only [recordAndCheckDedupe]
  split
  · rename_i h
    rw [h]
    rfl
  · rename_i h
    have h2 : (alookup ((clientBucketOf s c).filter
        (fun p => decide (n - p.2 ≤ 5 * 60 * 1000))) k).isSome = false := by
      simpa using h
    rw [h2]
    rfl

theorem recordAndCheckDedupe_accepted_map_invariant (s : GState)
    (m : List (String × String)) (c k : String) (n : Int) :
    (recordAndCheckDedupe { s with bookmarkIdToManagedKey := m } c k n).2 =
      (recordAndCheckDedupe s c k n).2 := by
  rw [recordAndCheckDedupe_accepted, recordAndCheckDedupe_accepted]
  rfl

theorem ne_empty_of_length_pos (s : String) (h : 0 < s.length) : s ≠ "" := by
  intro he
  rw [he] at h
  exact absurd h (by decide)


/-- C8: key derivation in `handleBookmarkCreated` when the id has no
existing entry in the managed index: a `note:`-prefixed parent key yields
`<pathAfterPrefix>|<index>` (index defaulting to 0 when missing or
negative), a `folder:`-prefixed parent key is used verbatim, an unprefixed
or missing parent key falls back to `folder:<parentTitle>` when the parent
has a non-empty (trimmed) title, and otherwise to `bookmark:<id>`; every
non-fallback derived key is recorded into the id-to-key map before the
event is enqueued. -/
theorem c8_created_key_derivation (env : CaptureEnv) (state : GState) (id : String)
    (bm : CreatedInfo)
    (hImp : state.importInProgress = false)
    (hSup : shouldSuppressReverseEnqueue state env.now = false)
    (hNoKey : getManagedBookmarkKeyById state id = none)
    (hDed : (recordAndCheckDedupe state "outbound" ("outbound:" ++ env.newEventId)
      env.now).2 = true) :
    (∀ pk, getManagedFolderKeyById state bm.parentId = some pk →
      strStartsWith pk "note:" = true →
      (handleBookmarkCreated env state id (some bm)).1.reverseQueue.map
          (fun it => it.event.managedKey) =
        state.reverseQueue.map (fun it => it.event.managedKey) ++
          [strTrim (strDrop pk 5) ++ "|" ++ toString (createdIndexOf bm.index)] ∧
      alookup (handleBookmarkCreated env state id (some bm)).1.bookmarkIdToManagedKey id =
        some (strTrim (strDrop pk 5) ++ "|" ++ toString (createdIndexOf bm.index))) ∧
    (∀ pk, getManagedFolderKeyById state bm.parentId = some pk →
      strStartsWith pk "note:" = false → strStartsWith pk "folder:" = true →
      (handleBookmarkCreated env state id (some bm)).1.reverseQueue.map
          (fun it => it.event.managedKey) =
        state.reverseQueue.map (fun it => it.event.managedKey) ++ [pk] ∧
      alookup (handleBookmarkCreated env state id (some bm)).1.bookmarkIdToManagedKey id =
        some pk) ∧
    ((getManagedFolderKeyById state bm.parentId = none ∨
        (∃ pk, getManagedFolderKeyById state bm.parentId = some pk ∧
          strStartsWith pk "note:" = false ∧ strStartsWith pk "folder:" = false)) →
      resolveFolderNameFromBookmarkId env bm.parentId ≠ "" →
      (handleBookmarkCreated env state id (some bm)).1.reverseQueue.map
          (fun it => it.event.managedKey) =
        state.reverseQueue.map (fun it => it.event.managedKey) ++
          ["folder:" ++ resolveFolderNameFromBookmarkId env bm.parentId] ∧
      alookup (handleBookmarkCreated env state id (some bm)).1.bookmarkIdToManagedKey id =
        some ("folder:" ++ resolveFolderNameFromBookmarkId env bm.parentId)) ∧
    ((getManagedFolderKeyById state bm.parentId = none ∨
        (∃ pk, getManagedFolderKeyById state bm.parentId = some pk ∧
          strStartsWith pk "note:" = false ∧ strStartsWith pk "folder:" = false)) →
      resolveFolderNameFromBookmarkId env bm.parentId = "" →
      (handleBookmarkCreated env state id (some bm)).1.reverseQueue.map
          (fun it => it.event.managedKey) =
        state.reverseQueue.map (fun it => it.event.managedKey) ++ ["bookmark:" ++ id] ∧
      alookup (handleBookmarkCreated env state id (some bm)).1.bookmarkIdToManagedKey id =
        none) := by
  have hNoKeyA : alookup state.bookmarkIdToManagedKey id = none := by
    unfold getManagedBookmarkKeyById at hNoKey
    cases ha : alookup state.bookmarkIdToManagedKey id with
    | none => rfl
    | some k => rw [ha] at hNoKey; exact absurd hNoKey (by simp)
  refine ⟨?_, ?_, ?_, ?_⟩
  · intro pk hpk hnote
    have hKne : strTrim (strDrop pk 5) ++ "|" ++ toString (createdIndexOf bm.index) ≠ "" := by
      apply ne_empty_of_length_pos
      rw [String.length_append, String.length_append]
      have h1 : ("|" : String).length = 1 := rfl
      omega
    have hDed2 : (recordAndCheckDedupe
        (updateBookmarkKeyMapping state id (strTrim (strDrop pk 5) ++ "|" ++
          toString (createdIndexOf bm.index))) "outbound"
        ("outbound:" ++ env.newEventId) env.now).2 = true := by
      rw [updateBookmarkKeyMapping, recordAndCheckDedupe_accepted_map_invariant]
      exact hDed
    have he := enqueue_effect
      (updateBookmarkKeyMapping state id
        (strTrim (strDrop pk 5) ++ "|" ++ toString (createdIndexOf bm.index)))
      { batchId := env.newBatchId
        eventId := env.newEventId
        type := "bookmark_created"
        bookmarkId := some id
        managedKey := strTrim (strDrop pk 5) ++ "|" ++ toString (createdIndexOf bm.index)
        parentId := none
        moveIndex := none
        title := bm.title
        url := bm.url
        occurredAt := env.nowIso
        schemaVersion := "1" } env.now env.nowIso hDed2
    simp only [handleBookmarkCreated, hImp, hSup, hNoKey, hpk, hnote, jsOrS,
      Bool.false_eq_true, if_false, if_true, ite_true, ite_false, if_neg hKne]
    exact ⟨he.1, by rw [he.2.1]; exact alookup_cons_self id _ _⟩
  · intro pk hpk hnote hfold
    have hKne : pk ≠ "" := by
      intro h0
      rw [h0] at hfold
      exact absurd hfold (by decide)
    have hDed2 : (recordAndCheckDedupe
        (updateBookmarkKeyMapping state id pk) "outbound"
        ("outbound:" ++ env.newEventId) env.now).2 = true := by
      rw [updateBookmarkKeyMapping, recordAndCheckDedupe_accepted_map_invariant]
      exact hDed
    have he := enqueue_effect (updateBookmarkKeyMapping state id pk)
      { batchId := env.newBatchId
        eventId := env.newEventId
        type := "bookmark_created"
        bookmarkId := some id
        managedKey := pk
        parentId := none
        moveIndex := none
        title := bm.title
        url := bm.url
        occurredAt := env.nowIso
        schemaVersion := "1" } env.now env.nowIso hDed2
    simp only [handleBookmarkCreated, hImp, hSup, hNoKey, hpk, hnote, hfold, jsOrS,
      Bool.false_eq_true, if_false, if_true, ite_true, ite_false, if_neg hKne]
    exact ⟨he.1, by rw [he.2.1]; exact alookup_cons_self id _ _⟩
  · intro hpk hname
    have hKne : "folder:" ++ resolveFolderNameFromBookmarkId env bm.parentId ≠ "" := by
      apply ne_empty_of_length_pos
      rw [String.length_append]
      have h1 : ("folder:" : String).length = 7 := rfl
      omega
    have hDed2 : (recordAndCheckDedupe
        (updateBookmarkKeyMapping state id
          ("folder:" ++ resolveFolderNameFromBookmarkId env bm.parentId)) "outbound"
        ("outbound:" ++ env.newEventId) env.now).2 = true := by
      rw [updateBookmarkKeyMapping, recordAndCheckDedupe_accepted_map_invariant]
      exact hDed
    have he := enqueue_effect
      (updateBookmarkKeyMapping state id
        ("folder:" ++ resolveFolderNameFromBookmarkId env bm.parentId))
      { batchId := env.newBatchId
        eventId := env.newEventId
        type := "bookmark_created"
        bookmarkId := some id
        managedKey := "folder:" ++ resolveFolderNameFromBookmarkId env bm.parentId
        parentId := none
        moveIndex := none
        title := bm.title
        url := bm.url
        occurredAt := env.nowIso
        schemaVersion := "1" } env.now env.nowIso hDed2
    rcases hpk with hpkn | ⟨pk, hpk, hn1, hn2⟩
    · simp only [handleBookmarkCreated, hImp, hSup, hNoKey, hpkn, jsOrS,
        Bool.false_eq_true, if_false, if_true, ite_true, ite_false, if_pos hname,
        if_neg hKne, hname]
      exact ⟨he.1, by rw [he.2.1]; exact alookup_cons_self id _ _⟩
    · simp only [handleBookmarkCreated, hImp, hSup, hNoKey, hpk, hn1, hn2, jsOrS,
        Bool.false_eq_true, if_false, if_true, ite_true, ite_false, if_pos hname,
        if_neg hKne, hname]
      exact ⟨he.1, by rw [he.2.1]; exact alookup_cons_self id _ _⟩
  · intro hpk hname
    have he := enqueue_effect state
      { batchId := env.newBatchId
        eventId := env.newEventId
        type := "bookmark_created"
        bookmarkId := some id
        managedKey := "bookmark:" ++ id
        parentId := none
        moveIndex := none
        title := bm.title
        url := bm.url
        occurredAt := env.nowIso
        schemaVersion := "1" } env.now env.nowIso hDed
    rcases hpk with hpkn | ⟨pk, hpk, hn1, hn2⟩
    · simp only [handleBookmarkCreated, hImp, hSup, hNoKey, hpkn, hname, jsOrS,
        Bool.false_eq_true, if_false, if_true, ite_true, ite_false]
      exact ⟨he.1, (he.2.1).symm ▸ hNoKeyA⟩
    · simp only [handleBookmarkCreated, hImp, hSup, hNoKey, hpk, hn1, hn2, hname, jsOrS,
        Bool.false_eq_true, if_false, if_true, ite_true, ite_false]
      exact ⟨he.1, (he.2.1).symm ▸ hNoKeyA⟩

/-- A state whose only managed folders are the root and a `note:` folder. -/
def noteParentState : GState :=
  { managedFolderIds := [("__root__", "100"), ("note:Projects/Alpha.md", "201")]
    managedBookmarkIds := []
    reverseQueue := []
    bookmarkIdToManagedKey := []
    suppressionState := { applyEpoch := false, epochStartedAt := none, cooldownUntil := none }
    importInProgress := false
    wsDedupe := { byClient := [], updatedAt := 0 } }

theorem c8_created_key_derivation_witness :
    ((handleBookmarkCreated sampleEnv noteParentState "bk-new"
        (some { parentId := some "201", index := some 0, title := some "New",
                url := some "https://ex/new" })).1.reverseQueue.map
        (fun it => it.event.managedKey) =
      noteParentState.reverseQueue.map (fun it => it.event.managedKey) ++
        [strTrim (strDrop "note:Projects/Alpha.md" 5) ++ "|" ++
          toString (createdIndexOf (some 0))] ∧
    alookup (handleBookmarkCreated sampleEnv noteParentState "bk-new"
        (some { parentId := some "201", index := some 0, title := some "New",
                url := some "https://ex/new" })).1.bookmarkIdToManagedKey "bk-new" =
      some (strTrim (strDrop "note:Projects/Alpha.md" 5) ++ "|" ++
        toString (createdIndexOf (some 0)))) ∧
    strTrim (strDrop "note:Projects/Alpha.md" 5) ++ "|" ++ toString (createdIndexOf (some 0)) =
      "Projects/Alpha.md|0" :=
  ⟨(c8_created_key_derivation sampleEnv noteParentState "bk-new"
      { parentId := some "201", index := some 0, title := some "New",
        url := some "https://ex/new" }
      rfl (by decide) (by decide) (by decide)).1
    "note:Projects/Alpha.md" (by decide) (by decide), by decide⟩

theorem alookup_append {α : Type} (l1 l2 : List (String × α)) (k : String) :
    alookup (l1 ++ l2) k =
      match alookup l1 k with
      | some v => some v
      | none => alookup l2 k := by
  induction l1 with
  | nil => rfl
  | cons q rest ih =>
    obtain ⟨a, b⟩ := q
    by_cases h : a = k
    · simp [alookup, h]
    · simp [alookup, h, ih]

theorem alookup_filter {α : Type} (l : List (String × α)) (p : String × α → Bool)
    (k : String) (v : α) (h : alookup (l.filter p) k = some v) : p (k, v) = true := by
  induction l with
  | nil => simp [alookup] at h
  | cons q rest ih =>
    obtain ⟨a, b⟩ := q
    by_cases hp : p (a, b) = true
    · rw [List.filter_cons_of_pos hp] at h
      simp only [alookup] at h
      by_cases hak : a = k
      · rw [if_pos hak] at h
        have hbv : b = v := by injection h
        subst hbv
        subst hak
        exact hp
      · rw [if_neg hak] at h
        exact ih h
    · rw [List.filter_cons_of_neg (by simpa using hp)] at h
      exact ih h

/-- C9: `recordAndCheckDedupe` first evicts entries older than the 5-minute
TTL from the client's bucket; it returns `false` without refreshing the
key's timestamp when the key survives eviction, otherwise records `now`
under the key and returns `true`; after the call no entry older than the
TTL remains in the bucket; and a second call for the same `(clientId, key)`
within the TTL window returns `false`. -/
theorem c9_recordAndCheckDedupe (state : GState) (clientId key : String) (now : Int) :
    ((recordAndCheckDedupe state clientId key now).2 = true ↔
      alookup ((clientBucketOf state clientId).filter
        (fun p => decide (now - p.2 ≤ 5 * 60 * 1000))) key = none) ∧
    ((recordAndCheckDedupe state clientId key now).2 = false →
      alookup (clientBucketOf (recordAndCheckDedupe state clientId key now).1 clientId) key =
        alookup ((clientBucketOf state clientId).filter
          (fun p => decide (now - p.2 ≤ 5 * 60 * 1000))) key) ∧
    ((recordAndCheckDedupe state clientId key now).2 = true →
      alookup (clientBucketOf (recordAndCheckDedupe state clientId key now).1 clientId) key =
        some now) ∧
    (∀ k2 ts2,
      alookup (clientBucketOf (recordAndCheckDedupe state clientId key now).1 clientId) k2 =
        some ts2 → now - ts2 ≤ 5 * 60 * 1000) ∧
    ((recordAndCheckDedupe state clientId key now).2 = true → ∀ now2, now ≤ now2 →
      now2 - now ≤ 5 * 60 * 1000 →
      (recordAndCheckDedupe (recordAndCheckDedupe state clientId key now).1 clientId key
        now2).2 = false) := by
  by_cases hcond : (alookup ((clientBucketOf state clientId).filter
      (fun p => decide (now - p.2 ≤ 5 * 60 * 1000))) key).isSome = true
  · have hres : recordAndCheckDedupe state clientId key now =
        ({ state with wsDedupe :=
            { byClient := (clientId, (clientBucketOf state clientId).filter
                (fun p => decide (now - p.2 ≤ 5 * 60 * 1000))) :: state.wsDedupe.byClient
              updatedAt := now } }, false) := by
      simp only [recordAndCheckDedupe]
      rw [if_pos hcond]
    rw [hres]
    have hbucket : clientBucketOf
        { state with wsDedupe :=
            { byClient := (clientId, (clientBucketOf state clientId).filter
                (fun p => decide (now - p.2 ≤ 5 * 60 * 1000))) :: state.wsDedupe.byClient
              updatedAt := now } } clientId =
        (clientBucketOf state clientId).filter
          (fun p => decide (now - p.2 ≤ 5 * 60 * 1000)) := by
      unfold clientBucketOf
      simp [alookup]
    refine ⟨?_, ?_, ?_, ?_, ?_⟩
    · constructor
      · intro hf; exact absurd hf (by simp)
      · intro hn; rw [hn] at hcond; exact absurd hcond (by simp)
    · intro _
      rw [hbucket]
    · intro hf; exact absurd hf (by simp)
    · intro k2 ts2 hlk
      rw [hbucket] at hlk
      have := alookup_filter _ _ _ _ hlk
      simpa using this
    · intro hf; exact absurd hf (by simp)
  · have hnone : alookup ((clientBucketOf state clientId).filter
        (fun p => decide (now - p.2 ≤ 5 * 60 * 1000))) key = none := by
      cases ho : alookup ((clientBucketOf state clientId).filter
          (fun p => decide (now - p.2 ≤ 5 * 60 * 1000))) key with
      | none => rfl
      | some v => rw [ho] at hcond; exact absurd (by simp) hcond
    have hres : recordAndCheckDedupe state clientId key now =
        ({ state with wsDedupe :=
            { byClient := (clientId, (clientBucketOf state clientId).filter
                (fun p => decide (now - p.2 ≤ 5 * 60 * 1000)) ++ [(key, now)]) ::
                state.wsDedupe.byClient
              updatedAt := now } }, true) := by
      simp only [recordAndCheckDedupe]
      rw [if_neg hcond]
    rw [hres]
    have hbucket : clientBucketOf
        { state with wsDedupe :=
            { byClient := (clientId, (clientBucketOf state clientId).filter
                (fun p => decide (now - p.2 ≤ 5 * 60 * 1000)) ++ [(key, now)]) ::
                state.wsDedupe.byClient
              updatedAt := now } } clientId =
        (clientBucketOf state clientId).filter
          (fun p => decide (now - p.2 ≤ 5 * 60 * 1000)) ++ [(key, now)] := by
      unfold clientBucketOf
      simp [alookup]
    refine ⟨?_, ?_, ?_, ?_, ?_⟩
    · exact ⟨fun _ => hnone, fun _ => rfl⟩
    · intro hf; exact absurd hf (by simp)
    · intro _
      rw [hbucket, alookup_append, hnone]
      simp [alookup]
    · intro k2 ts2 hlk
      rw [hbucket, alookup_append] at hlk
      cases ho : alookup ((clientBucketOf state clientId).filter
          (fun p => decide (now - p.2 ≤ 5 * 60 * 1000))) k2 with
      | some v =>
        rw [ho] at hlk
        have hv : v = ts2 := by injection hlk
        subst hv
        have := alookup_filter _ _ _ _ ho
        simpa using this
      | none =>
        rw [ho] at hlk
        simp only [alookup] at hlk
        by_cases hk2 : key = k2
        · rw [if_pos hk2] at hlk
          have : now = ts2 := by injection hlk
          subst this
          simp
        · rw [if_neg hk2] at hlk
          exact absurd hlk (by simp)
      -- second call
    · intro _ now2 hle hwin
      rw [recordAndCheckDedupe_accepted]
      rw [hbucket]
      rw [List.filter_append]
      have hsing : List.filter (fun p => decide (now2 - p.2 ≤ 5 * 60 * 1000))
          ([(key, now)] : List (String × Int)) = [(key, now)] := by
        simp
        omega
      rw [hsing]
      rw [alookup_append]
      cases ho : alookup (((clientBucketOf state clientId).filter
          (fun p => decide (now - p.2 ≤ 5 * 60 * 1000))).filter
          (fun p => decide (now2 - p.2 ≤ 5 * 60 * 1000))) key with
      | some v => simp
      | none => simp [alookup]

theorem c9_recordAndCheckDedupe_witness :
    alookup (clientBucketOf (recordAndCheckDedupe emptyQueueState "c1" "k1" 1000).1 "c1")
      "k1" = some 1000 ∧
    (recordAndCheckDedupe (recordAndCheckDedupe emptyQueueState "c1" "k1" 1000).1 "c1" "k1"
      2000).2 = false :=
  ⟨(c9_recordAndCheckDedupe emptyQueueState "c1" "k1" 1000).2.2.1 (by decide),
   (c9_recordAndCheckDedupe emptyQueueState "c1" "k1" 1000).2.2.2.2 (by decide) 2000
     (by decide) (by decide)⟩

/-- An element of a JSON array as the envelope validators observe it: the
only reader applied to array elements is `readString`, which distinguishes
strings from everything else, so nested arrays and objects are collapsed to
markers. -/
inductive JAtom where
  | undef
  | nullv
  | str (s : String)
  | boolv (b : Bool)
  | intv (n : Int)
  | numv
  | arrv
  | objv
deriving DecidableEq

/-- A JSON-decoded JavaScript value as the envelope validators observe it:
the validators only distinguish undefined, null, strings, booleans, integer
numbers, non-integer numbers, arrays and plain objects (their contents,
beyond string-array elements, are never inspected). -/
inductive JVal where
  | undef
  | nullv
  | str (s : String)
  | boolv (b : Bool)
  | intv (n : Int)
  | numv
  | arr (elems : List JAtom)
  | obj
deriving DecidableEq

/-- A record presented to `parseWsEnvelope` / `parseAndValidateWsEnvelope`:
one field per property either validator reads (absent properties are
`JVal.undef`). -/
structure WsBody where
  type : JVal
  eventId : JVal
  clientId : JVal
  occurredAt : JVal
  schemaVersion : JVal
  idempotencyKey : JVal
  correlationId : JVal
  sessionId : JVal
  token : JVal
  capabilities : JVal
  accepted : JVal
  heartbeatMs : JVal
  op : JVal
  target : JVal
  payload : JVal
  status : JVal
  reason : JVal
  resolvedPath : JVal
  resolvedKey : JVal
  legacyStatus : JVal
  code : JVal
  message : JVal
  retryable : JVal
  details : JVal
deriving DecidableEq

/-- `WS_MESSAGE_TYPES` from `websocket-envelope.js`. -/
def WS_MESSAGE_TYPES : List String :=
  ["handshake", "handshake_ack", "action", "ack", "error", "heartbeat_ping",
   "heartbeat_pong"]

/-- `WS_ACK_STATUSES` from `websocket-envelope.js`. -/
def WS_ACK_STATUSES : List String :=
  ["received", "applied", "duplicate", "skipped", "rejected"]

/-- `LEGACY_ACK_STATUSES` from `websocket-envelope.js`. -/
def LEGACY_ACK_STATUSES : List String :=
  ["applied", "skipped_ambiguous", "skipped_unmanaged", "rejected_invalid", "duplicate"]

/-- `readString`: trimmed non-empty string, else null (`none`). -/
def readString (v : JVal) : Option String :=
  match v with
  | .str s => if strTrim s = "" then none else some (strTrim s)
  | _ => none

/-- `readOptionalString`: `some none` is JS `undefined` (absent), `none` is
JS `null` (invalid), `some (some s)` a valid value. -/
def readOptionalString (v : JVal) : Option (Option String) :=
  match v with
  | .undef => some none
  | _ =>
    match readString v with
    | some s => some (some s)
    | none => none

/-- `readMessageType` (no trimming in the source). -/
def readMessageType (v : JVal) : Option String :=
  match v with
  | .str s => if s ∈ WS_MESSAGE_TYPES then some s else none
  | _ => none

/-- `readWsAckStatus` (no trimming in the source). -/
def readWsAckStatus (v : JVal) : Option String :=
  match v with
  | .str s => if s ∈ WS_ACK_STATUSES then some s else none
  | _ => none

/-- `readOptionalLegacyAckStatus`. -/
def readOptionalLegacyAckStatus (v : JVal) : Option (Option String) :=
  match v with
  | .undef => some none
  | .str s => if s ∈ LEGACY_ACK_STATUSES then some (some s) else none
  | _ => none

/-- `readHeartbeatMs`: integer in [1000, 120000]. -/
def readHeartbeatMs (v : JVal) : Option Int :=
  match v with
  | .intv n => if 1000 ≤ n ∧ n ≤ 120000 then some n else none
  | _ => none

/-- `readString` applied to an array element. -/
def readStringAtom (v : JAtom) : Option String :=
  match v with
  | .str s => if strTrim s = "" then none else some (strTrim s)
  | _ => none

/-- The element loop of `readOptionalStringArray`. -/
def readStringList : List JAtom → Option (List String)
  | [] => some []
  | v :: rest =>
    match readStringAtom v with
    | some s =>
      match readStringList rest with
      | some l => some (s :: l)
      | none => none
    | none => none

/-- `readOptionalStringArray`. -/
def readOptionalStringArray (v : JVal) : Option (Option (List String)) :=
  match v with
  | .undef => some none
  | .arr elems =>
    match readStringList elems with
    | some l => some (some l)
    | none => none
  | _ => none

/-- `readRecord`: a plain object (arrays and null are rejected). -/
def readRecord (v : JVal) : Option Unit :=
  match v with
  | .obj => some ()
  | _ => none

/-- `readOptionalRecord`. -/
def readOptionalRecord (v : JVal) : Option (Option Unit) :=
  match v with
  | .undef => some none
  | .obj => some (some ())
  | _ => none

/-- A validated envelope, one constructor per `type`
(`details` is kept as a presence flag only). -/
inductive WsEnv where
  | handshake (eventId clientId occurredAt schemaVersion : String)
      (idempotencyKey correlationId : Option String)
      (sessionId token : String) (capabilities : Option (List String))
  | handshakeAck (eventId clientId occurredAt schemaVersion : String)
      (idempotencyKey correlationId : Option String)
      (sessionId : String) (accepted : Bool) (heartbeatMs : Int)
  | action (eventId clientId occurredAt schemaVersion : String)
      (idempotencyKey : String) (correlationId : Option String)
      (op target : String)
  | ack (eventId clientId occurredAt schemaVersion : String)
      (idempotencyKey : Option String) (correlationId : String) (status : String)
      (reason resolvedPath resolvedKey legacyStatus : Option String)
  | error (eventId clientId occurredAt schemaVersion : String)
      (idempotencyKey correlationId : Option String)
      (code message : String) (retryable : Bool) (hasDetails : Bool)
  | heartbeatPing (eventId clientId occurredAt schemaVersion : String)
      (idempotencyKey correlationId : Option String)
  | heartbeatPong (eventId clientId occurredAt schemaVersion : String)
      (idempotencyKey : Option String) (correlationId : String)
deriving DecidableEq

/-- `parseAndValidateWsEnvelope(body)` from `websocket-envelope.js`
(`src/unnamed/part_000`): the strict typed validator. -/
def parseAndValidateWsEnvelope (b : WsBody) : Option WsEnv :=
  match readMessageType b.type, readString b.eventId, readString b.clientId,
      readString b.occurredAt, readString b.schemaVersion,
      readOptionalString b.idempotencyKey, readOptionalString b.correlationId with
  | some t, some eventId, some clientId, some occurredAt, some schemaVersion,
      some idempotencyKey, some correlationId =>
    if t = "handshake" then
      match readString b.sessionId, readString b.token,
          readOptionalStringArray b.capabilities with
      | some sessionId, some token, some capabilities =>
        some (.handshake eventId clientId occurredAt schemaVersion idempotencyKey
          correlationId sessionId token capabilities)
      | _, _, _ => none
    else if t = "handshake_ack" then
      match readString b.sessionId, b.accepted, readHeartbeatMs b.heartbeatMs with
      | some sessionId, .boolv accepted, some heartbeatMs =>
        some (.handshakeAck eventId clientId occurredAt schemaVersion idempotencyKey
          correlationId sessionId accepted heartbeatMs)
      | _, _, _ => none
    else if t = "action" then
      match readString b.op, readString b.target, readRecord b.payload,
          idempotencyKey with
      | some op, some target, some _, some ik =>
        some (.action eventId clientId occurredAt schemaVersion ik correlationId op
          target)
      | _, _, _, _ => none
    else if t = "ack" then
      match readWsAckStatus b.status, correlationId, readOptionalString b.reason,
          readOptionalString b.resolvedPath, readOptionalString b.resolvedKey,
          readOptionalLegacyAckStatus b.legacyStatus with
      | some status, some corr, some reason, some resolvedPath, some resolvedKey,
          some legacyStatus =>
        some (.ack eventId clientId occurredAt schemaVersion idempotencyKey corr
          status reason resolvedPath resolvedKey legacyStatus)
      | _, _, _, _, _, _ => none
    else if t = "error" then
      match readString b.code, readString b.message, b.retryable,
          readOptionalRecord b.details with
      | some code, some message, .boolv retryable, some details =>
        some (.error eventId clientId occurredAt schemaVersion idempotencyKey
          correlationId code message retryable details.isSome)
      | _, _, _, _ => none
    else if t = "heartbeat_ping" then
      some (.heartbeatPing eventId clientId occurredAt schemaVersion idempotencyKey
        correlationId)
    else
      match correlationId with
      | some corr =>
        some (.heartbeatPong eventId clientId occurredAt schemaVersion idempotencyKey
          corr)
      | none => none
  | _, _, _, _, _, _, _ => none

/-- `readBridgeString(value)` from `background.js`: trimmed string, `""`
for any non-string. -/
def readBridgeString (v : JVal) : String :=
  match v with
  | .str s => strTrim s
  | _ => ""

/-- `parseWsEnvelope(body)` from `background.js`: the loose validator used
by `handleWebSocketMessage` on incoming WebSocket frames. It returns the
raw body; for an `ack` it only requires a non-empty `status`. -/
def parseWsEnvelope (b : WsBody) : Option WsBody :=
  if readBridgeString b.type = "" ∨ readBridgeString b.eventId = "" ∨
      readBridgeString b.clientId = "" ∨ readBridgeString b.occurredAt = "" ∨
      readBridgeString b.schemaVersion = "" then none
  else if readBridgeString b.type = "action" ∧
      (readBridgeString b.op = "" ∨ readBridgeString b.target = "" ∨
        readBridgeString b.idempotencyKey = "") then none
  else if readBridgeString b.type = "ack" ∧ readBridgeString b.status = "" then none
  else some b

/-- A concrete ack body that violates all three C5 conditions at once:
`status` is `"zzz"` (not a WS ack status), `correlationId` is absent, and
`legacyStatus` is `"weird"` (present but not a legacy ack status). -/
def badAckBody : WsBody where
  type := JVal.str "ack"
  eventId := JVal.str "evt-1"
  clientId := JVal.str "client-1"
  occurredAt := JVal.str "2024-01-01T00:00:00Z"
  schemaVersion := JVal.str "1.0"
  idempotencyKey := JVal.undef
  correlationId := JVal.undef
  sessionId := JVal.undef
  token := JVal.undef
  capabilities := JVal.undef
  accepted := JVal.undef
  heartbeatMs := JVal.undef
  op := JVal.undef
  target := JVal.undef
  payload := JVal.undef
  status := JVal.str "zzz"
  reason := JVal.undef
  resolvedPath := JVal.undef
  resolvedKey := JVal.undef
  legacyStatus := JVal.str "weird"
  code := JVal.undef
  message := JVal.undef
  retryable := JVal.undef
  details := JVal.undef

/-- C5 counterexample: the validation actually applied to incoming
WebSocket messages is `parseWsEnvelope` (`handleWebSocketMessage`,
`background.js` line 530), and it ACCEPTS an ack envelope whose status is
outside the WS ack statuses, whose `correlationId` is absent, and whose
`legacyStatus` is present but outside the legacy statuses — so the claimed
rejection does not hold for the validation used on incoming messages. -/
theorem c5_counterexample :
    badAckBody.type = JVal.str "ack" ∧
    (∀ s, badAckBody.status = JVal.str s → s ∉ WS_ACK_STATUSES) ∧
    badAckBody.correlationId = JVal.undef ∧
    (badAckBody.legacyStatus ≠ JVal.undef ∧
      ∀ s, badAckBody.legacyStatus = JVal.str s → s ∉ LEGACY_ACK_STATUSES) ∧
    parseWsEnvelope badAckBody = some badAckBody := by
  refine ⟨rfl, ?_, rfl, ⟨by decide, ?_⟩, by decide⟩
  · intro s hs
    have h : JVal.str "zzz" = JVal.str s := hs
    injection h with h2
    subst h2
    decide
  · intro s hs
    have h : JVal.str "weird" = JVal.str s := hs
    injection h with h2
    subst h2
    decide

/-- C5 (amended): the strict standalone validator
`parseAndValidateWsEnvelope` (`websocket-envelope.js`) does reject an ack
envelope whenever its status is not a WS ack status, or its
`correlationId` is absent, or its `legacyStatus` is present but not a
legacy ack status. -/
theorem c5_ack_validation (b : WsBody) (ht : b.type = JVal.str "ack")
    (hbad :
      (∀ s, b.status = JVal.str s → s ∉ WS_ACK_STATUSES) ∨
      b.correlationId = JVal.undef ∨
      (b.legacyStatus ≠ JVal.undef ∧
        ∀ s, b.legacyStatus = JVal.str s → s ∉ LEGACY_ACK_STATUSES)) :
    parseAndValidateWsEnvelope b = none := by
  unfold parseAndValidateWsEnvelope
  split
  · rename_i t eventId clientId occurredAt schemaVersion idem corr h1 h2 h3 h4 h5 h6 h7
    rw [ht] at h1
    have hack : readMessageType (JVal.str "ack") = some "ack" := by decide
    rw [hack] at h1
    have hta : "ack" = t := Option.some.inj h1
    subst hta
    rw [if_neg (by decide : ¬ ("ack" = "handshake")),
        if_neg (by decide : ¬ ("ack" = "handshake_ack")),
        if_neg (by decide : ¬ ("ack" = "action")),
        if_pos (rfl : "ack" = "ack")]
    split
    · exfalso
      rename readWsAckStatus b.status = some _ => k1
      rename readOptionalString b.correlationId = some _ => h7
      rename readOptionalLegacyAckStatus b.legacyStatus = some _ => k6
      rcases hbad with hA | hB | ⟨hC1, hC2⟩
      · cases hstat : b.status <;> rw [hstat] at k1
        case str s =>
          by_cases hmem : s ∈ WS_ACK_STATUSES
          · exact hA s hstat hmem
          · simp [readWsAckStatus, hmem] at k1
        all_goals simp [readWsAckStatus] at k1
      · rw [hB] at h7
        simp [readOptionalString] at h7
      · cases hls : b.legacyStatus <;> rw [hls] at k6
        case undef => exact hC1 hls
        case str s =>
          by_cases hmem : s ∈ LEGACY_ACK_STATUSES
          · exact hC2 s hls hmem
          · simp [readOptionalLegacyAckStatus, hmem] at k6
        all_goals simp [readOptionalLegacyAckStatus] at k6
    · rfl
  · rfl

/-- Witness for C5 at the concrete body `badAckBody` (its `correlationId`
is absent). -/
theorem c5_ack_validation_witness :
    parseAndValidateWsEnvelope badAckBody = none :=
  c5_ack_validation badAckBody rfl (Or.inr (Or.inl rfl))

/-- The fallback chain of `mapWsAckToLegacyStatus` used when `legacyStatus`
is not a non-empty string: strict comparisons of the raw `status` value. -/
def mapWsStatusFallback (wsStatus : JVal) : String :=
  if wsStatus = JVal.str "applied" then "applied"
  else if wsStatus = JVal.str "duplicate" then "duplicate"
  else if wsStatus = JVal.str "skipped" then "skipped_ambiguous"
  else "rejected_invalid"

/-- `mapWsAckToLegacyStatus(wsStatus, legacyStatus)` from `background.js`:
a non-empty `legacyStatus` string is returned verbatim, otherwise the WS
status is mapped through the fallback chain. -/
def mapWsAckToLegacyStatus (wsStatus legacyStatus : JVal) : String :=
  match legacyStatus with
  | .str ls => if 0 < ls.length then ls else mapWsStatusFallback wsStatus
  | _ => mapWsStatusFallback wsStatus

theorem strLength_pos_of_ne_empty (s : String) (h : s ≠ "") : 0 < s.length := by
  cases s with
  | mk data =>
    cases data with
    | nil => exact absurd rfl h
    | cons c cs => simp [String.length]

theorem mapWs_nonempty_passthrough (ws : JVal) (ls : String) (h : ls ≠ "") :
    mapWsAckToLegacyStatus ws (JVal.str ls) = ls := by
  show (if 0 < ls.length then ls else mapWsStatusFallback ws) = ls
  rw [if_pos (strLength_pos_of_ne_empty ls h)]

/-- C10: when an inbound WS ack is bridged into a legacy-shaped batch
result (`handleWebSocketMessage` ack branch), a non-empty `legacyStatus`
string becomes the result status verbatim — even outside the five legacy
statuses — and such an unrecognized status makes `processReverseAckResponse`
leave the state (queue included) unchanged; only without a `legacyStatus` is
the WS status mapped: applied/duplicate verbatim, skipped becomes
skipped_ambiguous, everything else — "received" included — becomes
rejected_invalid. -/
theorem c10_legacy_status_passthrough (ws : JVal) :
    (∀ ls : String, ls ≠ "" → mapWsAckToLegacyStatus ws (JVal.str ls) = ls) ∧
    (mapWsAckToLegacyStatus (JVal.str "applied") JVal.undef = "applied" ∧
     mapWsAckToLegacyStatus (JVal.str "duplicate") JVal.undef = "duplicate" ∧
     mapWsAckToLegacyStatus (JVal.str "skipped") JVal.undef = "skipped_ambiguous" ∧
     mapWsAckToLegacyStatus (JVal.str "received") JVal.undef = "rejected_invalid" ∧
     (∀ w : JVal, w ≠ JVal.str "applied" → w ≠ JVal.str "duplicate" →
       w ≠ JVal.str "skipped" → mapWsAckToLegacyStatus w JVal.undef = "rejected_invalid")) ∧
    (∀ ls : String, ls ≠ "" → ls ∉ LEGACY_ACK_STATUSES →
      ∀ (st : GState) (batchId eid : String),
        (processReverseAckResponse st
          { batchId := batchId
            results := [{ eventId := eid
                          status := mapWsAckToLegacyStatus ws (JVal.str ls)
                          reason := none
                          resolvedPath := none
                          resolvedKey := none }] }).1 = st) := by
  refine ⟨fun ls h => mapWs_nonempty_passthrough ws ls h, ⟨by decide, by decide, by decide, by decide, ?_⟩, ?_⟩
  · intro w h1 h2 h3
    show mapWsStatusFallback w = "rejected_invalid"
    unfold mapWsStatusFallback
    rw [if_neg h1, if_neg h2, if_neg h3]
  · intro ls hne hnin st batchId eid
    have h1 : ¬ ls = "applied" := fun h => hnin (by rw [h]; decide)
    have h2 : ¬ ls = "duplicate" := fun h => hnin (by rw [h]; decide)
    have h3 : ¬ (ls = "skipped_ambiguous" ∨ ls = "skipped_unmanaged") := by
      rintro (h | h) <;> exact hnin (by rw [h]; decide)
    have h4 : ¬ ls = "rejected_invalid" := fun h => hnin (by rw [h]; decide)
    rw [mapWs_nonempty_passthrough ws ls hne]
    show (processAckResult batchId (snapshotByEventId st.reverseQueue) (st, [])
      { eventId := eid
        status := ls
        reason := none
        resolvedPath := none
        resolvedKey := none }).1 = st
    unfold processAckResult
    rw [if_neg h1, if_neg h2, if_neg h3, if_neg h4]

/-- Witness for C10 at `ws = received`, `legacyStatus = "zzz_custom"`. -/
theorem c10_legacy_status_passthrough_witness :
    mapWsAckToLegacyStatus (JVal.str "received") (JVal.str "zzz_custom") = "zzz_custom" ∧
    (processReverseAckResponse sampleState
      { batchId := "b1"
        results := [{ eventId := "e1"
                      status := mapWsAckToLegacyStatus (JVal.str "received") (JVal.str "zzz_custom")
                      reason := none
                      resolvedPath := none
                      resolvedKey := none }] }).1 = sampleState ∧
    mapWsAckToLegacyStatus (JVal.str "received") JVal.undef = "rejected_invalid" :=
  ⟨(c10_legacy_status_passthrough (JVal.str "received")).1 "zzz_custom" (by decide),
   (c10_legacy_status_passthrough (JVal.str "received")).2.2 "zzz_custom" (by decide) (by decide)
     sampleState "b1" "e1",
   (c10_legacy_status_passthrough (JVal.str "received")).2.1.2.2.2.1⟩
